import Mathlib

/-!
# Gridscale Terraform provider: handlers of the PaaS, PostgreSQL and server resources

A shallow embedding of the Create/Read/Update/Delete handlers of
`gridscale/resource_gridscale_paas.go`, `gridscale/resource_gridscale_postgresql.go`,
`gridscale/resource_server.go` and `gridscale/datasource_gridscale_server.go`.

A handler is a state transformer over the resource data `d` and the log of client
calls it has made; it ends with `nil` (`Except.ok ()`) or with a Go `error`.
The API client is a record of scripted responses, one per client method.
-/

set_option autoImplicit false

namespace Gridscale

/-! ## Go values -/

/-- A Go `error`. `RequestError` is `gsclient.RequestError` (it carries the HTTP status
code, `text` is what its `Error()` renders); `errorString` is what `fmt.Errorf` builds. -/
inductive GoError where
  | RequestError (StatusCode : Int) (text : String)
  | errorString (text : String)
  deriving DecidableEq, Repr

/-- The method `Error()` of a Go error, which is what `%v` prints. -/
def GoError.Error : GoError → String
  | .RequestError _ text => text
  | .errorString text => text

/-- An `interface{}` value as stored in the resource data or sent in a request.
A `float64` is kept as its bit pattern, it is only ever copied. -/
inductive Value where
  | null
  | str (s : String)
  | int (i : Int)
  | bool (b : Bool)
  | float (bits : Nat)
  | list (xs : List Value)
  | obj (fields : List (String × Value))

instance : Inhabited Value := ⟨Value.null⟩

/-- A Go `map[string]T` as an association list: lookup of a key. -/
def mapGet {α : Type} (m : List (String × α)) (k : String) : Option α :=
  match m with
  | [] => none
  | (k', v) :: rest => if k' = k then some v else mapGet rest k

/-- A Go `map[string]T` as an association list: `m[k] = v`. -/
def mapPut {α : Type} (m : List (String × α)) (k : String) (v : α) : List (String × α) :=
  match m with
  | [] => [(k, v)]
  | (k', v') :: rest => if k' = k then (k, v) :: rest else (k', v') :: mapPut rest k v

/-- The type assertion `v.(string)`. -/
def Value.asString : Value → String
  | .str s => s
  | _ => ""

/-- The type assertion `v.(int)`. -/
def Value.asInt : Value → Int
  | .int i => i
  | _ => 0

/-- The elements of `v.(*schema.Set).List()`. -/
def Value.asList : Value → List Value
  | .list xs => xs
  | _ => []

/-- The index expression `mapVal[k]` on a `map[string]interface{}`. -/
def Value.field (v : Value) (k : String) : Value :=
  match v with
  | .obj fields => (mapGet fields k).getD Value.null
  | _ => Value.null

/-- Whether a value is the zero value of its type (what `GetOk` tests). -/
def Value.isZero : Value → Bool
  | .null => true
  | .str s => s = ""
  | .int i => i = 0
  | .bool b => !b
  | .float bits => bits = 0
  | .list xs => xs.isEmpty
  | .obj fields => fields.isEmpty

/-! ## The resource data of the plugin SDK -/

/-- The SDK's `schema.ResourceData`: the resource ID, the attribute values, the keys
the plan reports as changed, and the schema check `Set` applies to a written value. -/
structure ResourceData where
  id : String
  attrs : List (String × Value)
  changed : List String
  reject : String → Value → Option GoError

namespace ResourceData

/-- `d.Id()`. -/
def Id (d : ResourceData) : String := d.id

/-- `d.SetId(v)`. -/
def SetId (d : ResourceData) (v : String) : ResourceData := { d with id := v }

/-- `d.Get(key)`: the attribute, or the zero value. -/
def Get (d : ResourceData) (key : String) : Value := (mapGet d.attrs key).getD Value.null

/-- `d.GetOk(key)`: the attribute and whether it is set to a non-zero value. -/
def GetOk (d : ResourceData) (key : String) : Value × Bool :=
  (d.Get key, !(d.Get key).isZero)

/-- `d.HasChange(key)`. -/
def HasChange (d : ResourceData) (key : String) : Bool := decide (key ∈ d.changed)

/-- `d.Set(key, value)`: writes the attribute unless the schema rejects the value. -/
def Set (d : ResourceData) (key : String) (value : Value) : Except GoError ResourceData :=
  match d.reject key value with
  | some err => .error err
  | none => .ok { d with attrs := mapPut d.attrs key value }

end ResourceData

/-! ## The API client (`gsclient`) -/

structure Credential where
  Username : String
  Password : String
  KubeConfig : String

structure ResourceLimit where
  Resource : String
  Limit : Int
  deriving DecidableEq

structure PaaSServiceProperties where
  Name : String
  Credentials : List Credential
  SecurityZoneUUID : String
  NetworkUUID : String
  ServiceTemplateUUID : String
  ServiceTemplateCategory : String
  UsageInMinutes : Int
  CurrentPrice : Nat
  ChangeTime : String
  CreateTime : String
  Status : String
  ListenPorts : List (String × List (String × Int))
  Parameters : List (String × Value)
  ResourceLimits : List ResourceLimit
  Labels : List String

structure PaaSService where
  Properties : PaaSServiceProperties

structure ServiceObject where
  ObjectUUID : String

structure NetworkRelations where
  PaaSSecurityZones : List ServiceObject

structure NetworkProperties where
  ObjectUUID : String
  Relations : NetworkRelations

structure Network where
  Properties : NetworkProperties

structure PaaSTemplateProperties where
  ObjectUUID : String
  Flavour : String
  Release : String
  PerformanceClass : String
  deriving DecidableEq

structure PaaSTemplate where
  Properties : PaaSTemplateProperties
  deriving DecidableEq

structure PaaSServiceCreateRequest where
  Name : String
  PaaSServiceTemplateUUID : String
  Labels : List String
  NetworkUUID : String
  PaaSSecurityZoneUUID : String
  Parameters : List (String × Value)
  ResourceLimits : List ResourceLimit

structure PaaSServiceCreateResponse where
  ObjectUUID : String

structure PaaSServiceUpdateRequest where
  Name : String
  Labels : List String
  NetworkUUID : String
  PaaSServiceTemplateUUID : String
  Parameters : List (String × Value)
  ResourceLimits : List ResourceLimit

structure ServerStorageRelationProperties where
  ObjectUUID : String
  BootDevice : Bool
  CreateTime : String
  Controller : Int
  Target : Int
  Lun : Int
  LicenseProductNo : Int
  Bus : Int
  ObjectName : String
  StorageType : String
  LastUsedTemplate : String
  Capacity : Int

structure ServerIPRelationProperties where
  Family : Int
  ObjectUUID : String

structure ServerIsoImageRelationProperties where
  ObjectUUID : String

structure ServerRelations where
  Storages : List ServerStorageRelationProperties
  Networks : List Value
  PublicIPs : List ServerIPRelationProperties
  IsoImages : List ServerIsoImageRelationProperties

structure ServerProperties where
  ObjectUUID : String
  Name : String
  Memory : Int
  Cores : Int
  HardwareProfile : String
  LocationUUID : String
  Power : Bool
  Status : String
  CreateTime : String
  ChangeTime : String
  CurrentPrice : Nat
  AvailabilityZone : String
  AutoRecovery : Bool
  ConsoleToken : String
  Legacy : Bool
  UsageInMinutesMemory : Int
  UsageInMinutesCores : Int
  Labels : List String
  Relations : ServerRelations

structure Server where
  Properties : ServerProperties

/-- The responses of the API client, one per method the handlers call. -/
structure Client where
  GetPaaSService : String → Except GoError PaaSService
  GetNetworkList : Except GoError (List Network)
  GetPaaSTemplateList : Except GoError (List PaaSTemplate)
  CreatePaaSService : PaaSServiceCreateRequest → Except GoError PaaSServiceCreateResponse
  UpdatePaaSService : String → PaaSServiceUpdateRequest → Option GoError
  DeletePaaSService : String → Option GoError
  GetServer : String → Except GoError Server
  StopServer : String → Option GoError
  DeleteServer : String → Option GoError

/-- A call a handler made on the client. -/
inductive Call where
  | GetPaaSService (id : String)
  | GetNetworkList
  | GetPaaSTemplateList
  | CreatePaaSService (req : PaaSServiceCreateRequest)
  | UpdatePaaSService (id : String) (req : PaaSServiceUpdateRequest)
  | DeletePaaSService (id : String)
  | GetServer (id : String)
  | StopServer (id : String)
  | DeleteServer (id : String)

/-- The helpers of package `gridscale` the handlers call whose source is not part of
these files; each handler takes them as given. -/
structure Helpers where
  convStrToTypeInterface : String → String → Except GoError Value
  getInterfaceType : Value → Except GoError String
  convInterfaceToString : String → Value → String × Option GoError
  convSOStrings : List Value → List String
  readServerNetworkRels : List Value → Value

/-! ## Handlers as state transformers -/

/-- What a handler works on: the resource data and the client calls made so far. -/
structure St where
  d : ResourceData
  calls : List Call

/-- A handler step: it changes the state and yields a value or ends with an error. -/
def Handler (α : Type) : Type := St → St × Except GoError α

namespace Handler

/-- A step that yields `a` and changes nothing. -/
def ret {α : Type} (a : α) : Handler α := fun s => (s, .ok a)

/-- Sequencing: `f` runs on the value of `m`, an error of `m` ends the handler. -/
def andThen {α β : Type} (m : Handler α) (f : α → Handler β) : Handler β := fun s =>
  match m s with
  | (s', .ok a) => f a s'
  | (s', .error e) => (s', .error e)

instance : Monad Handler where
  pure := ret
  bind := andThen

/-- The statement `return err` with a non-nil error. -/
def fail {α : Type} (err : GoError) : Handler α := fun s => (s, .error err)

/-- The resource data as it is now. -/
def data : Handler ResourceData := fun s => (s, .ok s.d)

/-- The statement `d.SetId(v)`. -/
def SetId (v : String) : Handler Unit := fun s => ({ s with d := s.d.SetId v }, .ok ())

/-- The expression `d.Set(key, value)`, its error as a value. -/
def Set (key : String) (value : Value) : Handler (Option GoError) := fun s =>
  match s.d.Set key value with
  | .ok d' => ({ s with d := d' }, .ok none)
  | .error err => (s, .ok (some err))

/-- A client call: it is logged, and its response is handed on as a value. -/
def call {α : Type} (c : Call) (response : α) : Handler α := fun s =>
  ({ s with calls := s.calls ++ [c] }, .ok response)

end Handler

open Handler

/-- The result of `fmt.Errorf(format, ...)` once formatted. -/
def Errorf (text : String) : GoError := GoError.errorString text

/-- The recurring statement
`if err = d.Set(key, value); err != nil { return fmt.Errorf("<text>%v", err) }`;
`text` is the formatted part of the message before the SDK's error. -/
def setOrReturn (text key : String) (value : Value) : Handler Unit := do
  let err ← Handler.Set key value
  match err with
  | some err => fail (Errorf (text ++ err.Error))
  | none => pure ()

/-- Modelled from the spec: `errHandler.SuppressHTTPErrorCodes(err, codes...)` of package
`gridscale/error-handler`, whose source is not among these files. The spec says that
delete operations treat "not found" as success and that the client returns a typed
request error carrying an HTTP status code: a request error whose status code is one
of `errorCodes` becomes `nil`, every other error is handed back unchanged. -/
def SuppressHTTPErrorCodes (err : Option GoError) (errorCodes : List Int) : Option GoError :=
  match err with
  | some (GoError.RequestError statusCode text) =>
    if statusCode ∈ errorCodes then none else some (GoError.RequestError statusCode text)
  | other => other

/-- The constant `http.StatusNotFound`. -/
def StatusNotFound : Int := 404

/-! ## `resource_gridscale_paas.go` -/

/-- The list `listenPorts` built by the two nested loops over `props.ListenPorts`. -/
def listenPortsOf (ListenPorts : List (String × List (String × Int))) : List Value :=
  match ListenPorts with
  | [] => []
  | (host, value) :: rest =>
    value.map (fun kv => Value.obj [("name", .str kv.1), ("host", .str host), ("port", .int kv.2)])
      ++ listenPortsOf rest

/-- The loop `for k, value := range props.Parameters` of the Read handler; `parameters`
is the slice built so far. The error of `convInterfaceToString` is dropped, as in the
source. -/
def readParameters (h : Helpers) (errorPrefix : String) (parameters : List Value) :
    List (String × Value) → Except GoError (List Value)
  | [] => .ok parameters
  | (k, value) :: rest =>
    match h.getInterfaceType value with
    | .error err => .error (Errorf (errorPrefix ++ " error: " ++ err.Error))
    | .ok paramValType =>
      let valueInString := (h.convInterfaceToString paramValType value).1
      let param := Value.obj
        [("param", .str k), ("value", .str valueInString), ("type", .str paramValType)]
      readParameters h errorPrefix (parameters ++ [param]) rest

/-- The list `resourceLimits` built from `props.ResourceLimits`. -/
def resourceLimitsOf (ResourceLimits : List ResourceLimit) : List Value :=
  ResourceLimits.map (fun value =>
    Value.obj [("resource", .str value.Resource), ("limit", .int value.Limit)])

/-- The loop `for _, network := range networks` that ends both Read handlers: a network
whose first security zone is the service's has its UUID written to `network_uuid`. -/
def setSecurityZoneNetwork (errorPrefix SecurityZoneUUID : String) : List Network → Handler Unit
  | [] => pure ()
  | network :: rest => do
    (match network.Properties.Relations.PaaSSecurityZones with
      | first :: _ =>
        if first.ObjectUUID = SecurityZoneUUID then
          setOrReturn (errorPrefix ++ " error setting network_uuid: ") "network_uuid"
            (.str network.Properties.ObjectUUID)
        else pure ()
      | [] => pure ())
    setSecurityZoneNetwork errorPrefix SecurityZoneUUID rest

/-- The tail of both Read handlers, from the comment "Look for security zone's network". -/
def lookForSecurityZoneNetwork (client : Client) (errorPrefix SecurityZoneUUID : String) :
    Handler Unit :=
  if SecurityZoneUUID = "" then pure ()
  else do
    let r ← call Call.GetNetworkList client.GetNetworkList
    match r with
    | .error err => fail (Errorf (errorPrefix ++ " error getting networks: " ++ err.Error))
    | .ok networks => setSecurityZoneNetwork errorPrefix SecurityZoneUUID networks

/-- The writes of `username`, `password` and `kubeconfig` under
`if creds != nil && len(creds) > 0`. -/
def setPaaSCredentials (errorPrefix : String) (creds : List Credential) : Handler Unit :=
  match creds with
  | first :: _ => do
    setOrReturn (errorPrefix ++ " error setting username: ") "username" (.str first.Username)
    setOrReturn (errorPrefix ++ " error setting password: ") "password" (.str first.Password)
    setOrReturn (errorPrefix ++ " error setting kubeconfig: ") "kubeconfig" (.str first.KubeConfig)
  | [] => pure ()

/-- The body of `resourceGridscalePaaSServiceRead` after `GetPaaSService` succeeded. -/
def paasReadProperties (h : Helpers) (client : Client) (errorPrefix : String)
    (props : PaaSServiceProperties) : Handler Unit := do
  let creds := props.Credentials
  setOrReturn (errorPrefix ++ " error setting name: ") "name" (.str props.Name)
  setPaaSCredentials errorPrefix creds
  setOrReturn (errorPrefix ++ " error setting security_zone_uuid: ") "security_zone_uuid"
    (.str props.SecurityZoneUUID)
  setOrReturn (errorPrefix ++ " error setting network_uuid: ") "network_uuid"
    (.str props.NetworkUUID)
  setOrReturn (errorPrefix ++ " error setting service_template_uuid_computed: ")
    "service_template_uuid_computed" (.str props.ServiceTemplateUUID)
  setOrReturn (errorPrefix ++ " error setting service_template_category: ")
    "service_template_category" (.str props.ServiceTemplateCategory)
  setOrReturn (errorPrefix ++ " error setting usage_in_minute: ") "usage_in_minute"
    (.int props.UsageInMinutes)
  setOrReturn (errorPrefix ++ " error setting current_price: ") "current_price"
    (.float props.CurrentPrice)
  setOrReturn (errorPrefix ++ " error setting change_time: ") "change_time" (.str props.ChangeTime)
  setOrReturn (errorPrefix ++ " error setting create_time: ") "create_time" (.str props.CreateTime)
  setOrReturn (errorPrefix ++ " error setting status: ") "status" (.str props.Status)
  let listenPorts := listenPortsOf props.ListenPorts
  setOrReturn (errorPrefix ++ " error setting listen ports: ") "listen_port" (.list listenPorts)
  match readParameters h errorPrefix [] props.Parameters with
  | .error err => fail err
  | .ok parameters => do
    setOrReturn (errorPrefix ++ " error setting parameters: ") "parameter" (.list parameters)
    let resourceLimits := resourceLimitsOf props.ResourceLimits
    setOrReturn (errorPrefix ++ " error setting resource limits: ") "resource_limit"
      (.list resourceLimits)
    setOrReturn (errorPrefix ++ " error setting labels: ") "labels"
      (.list (props.Labels.map Value.str))
    lookForSecurityZoneNetwork client errorPrefix props.SecurityZoneUUID

/-- The handler `resourceGridscalePaaSServiceRead`. -/
def resourceGridscalePaaSServiceRead (h : Helpers) (client : Client) : Handler Unit := do
  let d ← data
  let errorPrefix := "read paas (" ++ d.Id ++ ") resource -"
  let r ← call (Call.GetPaaSService d.Id) (client.GetPaaSService d.Id)
  match r with
  | .error err =>
    match err with
    | .RequestError statusCode _ =>
      if statusCode = 404 then SetId ""
      else fail (Errorf (errorPrefix ++ " error: " ++ err.Error))
    | _ => fail (Errorf (errorPrefix ++ " error: " ++ err.Error))
  | .ok paas => paasReadProperties h client errorPrefix paas.Properties

/-- The loop over `d.Get("parameter").(*schema.Set).List()` of Create and Update; `params`
is the map built so far and `wrap` is what the handler does to a conversion error before
returning it. -/
def convertParameters (h : Helpers) (wrap : GoError → GoError) :
    List Value → List (String × Value) → Except GoError (List (String × Value))
  | [], params => .ok params
  | mapVal :: rest, params =>
    let param := (mapVal.field "param").asString
    let paramValType := (mapVal.field "type").asString
    match h.convStrToTypeInterface paramValType (mapVal.field "value").asString with
    | .error err => .error (wrap err)
    | .ok typedVal => convertParameters h wrap rest (mapPut params param typedVal)

/-- The slice `limits` built from `d.Get("resource_limit").(*schema.Set).List()`. -/
def limitsOf (values : List Value) : List ResourceLimit :=
  values.map (fun mapVal =>
    { Resource := (mapVal.field "resource").asString, Limit := (mapVal.field "limit").asInt })

/-- The `requestBody` of `resourceGridscalePaaSServiceCreate`, or the error the handler
returns while building it. -/
def paasCreateRequestBody (h : Helpers) (d : ResourceData) :
    Except GoError PaaSServiceCreateRequest :=
  let requestBody : PaaSServiceCreateRequest :=
    { Name := (d.Get "name").asString
      PaaSServiceTemplateUUID := (d.Get "service_template_uuid").asString
      Labels := h.convSOStrings (d.Get "labels").asList
      NetworkUUID := ""
      PaaSSecurityZoneUUID := ""
      Parameters := []
      ResourceLimits := [] }
  let networkUUIDInf := (d.GetOk "network_uuid").1
  let isNetworkSet := (d.GetOk "network_uuid").2
  let requestBody :=
    if isNetworkSet then { requestBody with NetworkUUID := networkUUIDInf.asString }
    else requestBody
  let secZoneUUIDInf := (d.GetOk "security_zone_uuid").1
  let ok := (d.GetOk "security_zone_uuid").2
  let requestBody :=
    if ok && !isNetworkSet then
      { requestBody with PaaSSecurityZoneUUID := secZoneUUIDInf.asString }
    else requestBody
  match convertParameters h (fun err => err) (d.Get "parameter").asList [] with
  | .error err => .error err
  | .ok params =>
    .ok { requestBody with
          Parameters := params
          ResourceLimits := limitsOf (d.Get "resource_limit").asList }

/-- The handler `resourceGridscalePaaSServiceCreate`. -/
def resourceGridscalePaaSServiceCreate (h : Helpers) (client : Client) : Handler Unit := do
  let d ← data
  match paasCreateRequestBody h d with
  | .error err => fail err
  | .ok requestBody => do
    let r ← call (Call.CreatePaaSService requestBody) (client.CreatePaaSService requestBody)
    match r with
    | .error err => fail err
    | .ok response => do
      SetId response.ObjectUUID
      resourceGridscalePaaSServiceRead h client

/-- The `requestBody` of `resourceGridscalePaaSServiceUpdate`, or the error the handler
returns while building it. -/
def paasUpdateRequestBody (h : Helpers) (d : ResourceData) (errorPrefix : String) :
    Except GoError PaaSServiceUpdateRequest :=
  let labels := h.convSOStrings (d.Get "labels").asList
  let requestBody : PaaSServiceUpdateRequest :=
    { Name := (d.Get "name").asString
      Labels := labels
      NetworkUUID := ""
      PaaSServiceTemplateUUID := ""
      Parameters := []
      ResourceLimits := [] }
  let requestBody :=
    if d.HasChange "network_uuid" then
      { requestBody with NetworkUUID := (d.Get "network_uuid").asString }
    else requestBody
  let requestBody :=
    if d.HasChange "service_template_uuid" then
      { requestBody with PaaSServiceTemplateUUID := (d.Get "service_template_uuid").asString }
    else requestBody
  match convertParameters h (fun err => Errorf (errorPrefix ++ " error: " ++ err.Error))
      (d.Get "parameter").asList [] with
  | .error err => .error err
  | .ok params =>
    .ok { requestBody with
          Parameters := params
          ResourceLimits := limitsOf (d.Get "resource_limit").asList }

/-- The handler `resourceGridscalePaaSServiceUpdate`. -/
def resourceGridscalePaaSServiceUpdate (h : Helpers) (client : Client) : Handler Unit := do
  let d ← data
  let errorPrefix := "update paas (" ++ d.Id ++ ") resource -"
  match paasUpdateRequestBody h d errorPrefix with
  | .error err => fail err
  | .ok requestBody => do
    let err ← call (Call.UpdatePaaSService d.Id requestBody)
      (client.UpdatePaaSService d.Id requestBody)
    match err with
    | some err => fail (Errorf (errorPrefix ++ " error: " ++ err.Error))
    | none => resourceGridscalePaaSServiceRead h client

/-- The handler `resourceGridscalePaaSServiceDelete`. -/
def resourceGridscalePaaSServiceDelete (client : Client) : Handler Unit := do
  let d ← data
  let errorPrefix := "delete paas (" ++ d.Id ++ ") resource -"
  let response ← call (Call.DeletePaaSService d.Id) (client.DeletePaaSService d.Id)
  let err := SuppressHTTPErrorCodes response [StatusNotFound]
  match err with
  | some err => fail (Errorf (errorPrefix ++ " error: " ++ err.Error))
  | none => pure ()

/-! ## `resource_gridscale_postgresql.go` -/

/-- The constant `postgresTemplateFlavourName`. -/
def postgresTemplateFlavourName : String := "postgres"

/-- The inner loop of the release validation: whether `release` is already in
`releaseList` (the loop then continues with the next template). -/
def releasePresent (releaseList : List String) (release : String) : Bool :=
  match releaseList with
  | [] => false
  | first :: rest => if first = release then true else releasePresent rest release

/-- The loop labelled `TEMPLATELOOP` of the release validation, on the loop state
`(isReleaseValid, releaseList)`. -/
def releaseLoop (newReleaseVal : String) :
    List PaaSTemplate → Bool × List String → Bool × List String
  | [], state => state
  | template :: rest, (isReleaseValid, releaseList) =>
    if template.Properties.Flavour = postgresTemplateFlavourName then
      if releasePresent releaseList template.Properties.Release then
        releaseLoop newReleaseVal rest (isReleaseValid, releaseList)
      else
        let releaseList := releaseList ++ [template.Properties.Release]
        if template.Properties.Release = newReleaseVal then
          releaseLoop newReleaseVal rest (true, releaseList)
        else releaseLoop newReleaseVal rest (isReleaseValid, releaseList)
    else releaseLoop newReleaseVal rest (isReleaseValid, releaseList)

/-- The function given to `customdiff.ValidateChange("release", ...)` in
`resourceGridscalePostgreSQL`; `newValue` is the argument `new`. -/
def validateReleaseChange (client : Client) (newValue : Value) : Option GoError :=
  let newReleaseVal := newValue.asString
  match client.GetPaaSTemplateList with
  | .error err => some err
  | .ok paasTemplates =>
    let state := releaseLoop newReleaseVal paasTemplates (false, [])
    let isReleaseValid := state.1
    let releaseList := state.2
    if !isReleaseValid then
      some (Errorf (newReleaseVal ++ " is not a valid PostgreSQL release. Valid releases are: "
        ++ String.intercalate ", " releaseList ++ "\n"))
    else none

/-- The loop state of `getPostgresTemplateUUID`. -/
structure TemplateSearch where
  isReleaseValid : Bool
  releases : List String
  uTemplate : PaaSTemplate

/-- The loop of `getPostgresTemplateUUID` over `paasTemplates`. -/
def templateLoop (release performanceClass : String) :
    List PaaSTemplate → TemplateSearch → TemplateSearch
  | [], state => state
  | template :: rest, state =>
    if template.Properties.Flavour = postgresTemplateFlavourName then
      let state := { state with releases := state.releases ++ [template.Properties.Release] }
      if template.Properties.Release = release
          ∧ template.Properties.PerformanceClass = performanceClass then
        templateLoop release performanceClass rest
          { state with isReleaseValid := true, uTemplate := template }
      else templateLoop release performanceClass rest state
    else templateLoop release performanceClass rest state

/-- The zero value of `gsclient.PaaSTemplate` (`var uTemplate gsclient.PaaSTemplate`). -/
def zeroPaaSTemplate : PaaSTemplate :=
  { Properties := { ObjectUUID := "", Flavour := "", Release := "", PerformanceClass := "" } }

/-- The function `getPostgresTemplateUUID`. -/
def getPostgresTemplateUUID (client : Client) (release performanceClass : String) :
    Except GoError String :=
  match client.GetPaaSTemplateList with
  | .error err => .error err
  | .ok paasTemplates =>
    let state := templateLoop release performanceClass paasTemplates
      { isReleaseValid := false, releases := [], uTemplate := zeroPaaSTemplate }
    if !state.isReleaseValid then
      .error (Errorf (release ++ " is not a valid PostgreSQL release. Valid releases are: "
        ++ String.intercalate ", " state.releases ++ "\n"))
    else .ok state.uTemplate.Properties.ObjectUUID

/-- The loop of the PostgreSQL Read handler over `props.ResourceLimits` that writes
`max_core_count`. -/
def setMaxCoreCount (errorPrefix : String) : List ResourceLimit → Handler Unit
  | [] => pure ()
  | value :: rest => do
    (if value.Resource = "cores" then
        setOrReturn (errorPrefix ++ " error setting max_core_count: ") "max_core_count"
          (.int value.Limit)
      else pure ())
    setMaxCoreCount errorPrefix rest

/-- The writes of `username` and `password` under `if len(creds) > 0`. -/
def setPostgreSQLCredentials (errorPrefix : String) (creds : List Credential) : Handler Unit :=
  match creds with
  | first :: _ => do
    setOrReturn (errorPrefix ++ " error setting username: ") "username" (.str first.Username)
    setOrReturn (errorPrefix ++ " error setting password: ") "password" (.str first.Password)
  | [] => pure ()

/-- The body of `resourceGridscalePostgreSQLRead` after `GetPaaSService` succeeded. -/
def postgreSQLReadProperties (client : Client) (errorPrefix : String)
    (props : PaaSServiceProperties) : Handler Unit := do
  let creds := props.Credentials
  setOrReturn (errorPrefix ++ " error setting name: ") "name" (.str props.Name)
  setPostgreSQLCredentials errorPrefix creds
  setOrReturn (errorPrefix ++ " error setting security_zone_uuid: ") "security_zone_uuid"
    (.str props.SecurityZoneUUID)
  setOrReturn (errorPrefix ++ " error setting network_uuid: ") "network_uuid"
    (.str props.NetworkUUID)
  setOrReturn (errorPrefix ++ " error setting service_template_uuid: ") "service_template_uuid"
    (.str props.ServiceTemplateUUID)
  setOrReturn (errorPrefix ++ " error setting service_template_category: ")
    "service_template_category" (.str props.ServiceTemplateCategory)
  setOrReturn (errorPrefix ++ " error setting usage_in_minutes: ") "usage_in_minutes"
    (.int props.UsageInMinutes)
  setOrReturn (errorPrefix ++ " error setting change_time: ") "change_time" (.str props.ChangeTime)
  setOrReturn (errorPrefix ++ " error setting create_time: ") "create_time" (.str props.CreateTime)
  setOrReturn (errorPrefix ++ " error setting status: ") "status" (.str props.Status)
  let listenPorts := listenPortsOf props.ListenPorts
  setOrReturn (errorPrefix ++ " error setting listen ports: ") "listen_port" (.list listenPorts)
  setMaxCoreCount errorPrefix props.ResourceLimits
  setOrReturn (errorPrefix ++ " error setting labels: ") "labels"
    (.list (props.Labels.map Value.str))
  lookForSecurityZoneNetwork client errorPrefix props.SecurityZoneUUID

/-- The handler `resourceGridscalePostgreSQLRead`. -/
def resourceGridscalePostgreSQLRead (client : Client) : Handler Unit := do
  let d ← data
  let errorPrefix := "read paas (" ++ d.Id ++ ") resource -"
  let r ← call (Call.GetPaaSService d.Id) (client.GetPaaSService d.Id)
  match r with
  | .error err =>
    match err with
    | .RequestError statusCode _ =>
      if statusCode = 404 then SetId ""
      else fail (Errorf (errorPrefix ++ " error: " ++ err.Error))
    | _ => fail (Errorf (errorPrefix ++ " error: " ++ err.Error))
  | .ok paas => postgreSQLReadProperties client errorPrefix paas.Properties

/-- The `requestBody` of `resourceGridscalePostgreSQLCreate` for the template found. -/
def postgreSQLCreateRequestBody (h : Helpers) (d : ResourceData) (templateUUID : String) :
    PaaSServiceCreateRequest :=
  let requestBody : PaaSServiceCreateRequest :=
    { Name := (d.Get "name").asString
      PaaSServiceTemplateUUID := templateUUID
      Labels := h.convSOStrings (d.Get "labels").asList
      NetworkUUID := ""
      PaaSSecurityZoneUUID := ""
      Parameters := []
      ResourceLimits := [] }
  let networkUUIDInf := (d.GetOk "network_uuid").1
  let isNetworkSet := (d.GetOk "network_uuid").2
  let requestBody :=
    if isNetworkSet then { requestBody with NetworkUUID := networkUUIDInf.asString }
    else requestBody
  let secZoneUUIDInf := (d.GetOk "security_zone_uuid").1
  let ok := (d.GetOk "security_zone_uuid").2
  let requestBody :=
    if ok && !isNetworkSet then
      { requestBody with PaaSSecurityZoneUUID := secZoneUUIDInf.asString }
    else requestBody
  let val := (d.GetOk "max_core_count").1
  if (d.GetOk "max_core_count").2 then
    { requestBody with ResourceLimits := [{ Resource := "cores", Limit := val.asInt }] }
  else requestBody

/-- The handler `resourceGridscalePostgreSQLCreate`. -/
def resourceGridscalePostgreSQLCreate (h : Helpers) (client : Client) : Handler Unit := do
  let d ← data
  let errorPrefix := "create k8s (" ++ d.Id ++ ") resource -"
  let release := (d.Get "release").asString
  let performanceClass := (d.Get "performance_class").asString
  let r ← call Call.GetPaaSTemplateList (getPostgresTemplateUUID client release performanceClass)
  match r with
  | .error err => fail (Errorf (errorPrefix ++ " error: " ++ err.Error))
  | .ok templateUUID => do
    let requestBody := postgreSQLCreateRequestBody h d templateUUID
    let r ← call (Call.CreatePaaSService requestBody) (client.CreatePaaSService requestBody)
    match r with
    | .error err => fail err
    | .ok response => do
      SetId response.ObjectUUID
      resourceGridscalePostgreSQLRead client

/-- The part of `resourceGridscalePostgreSQLUpdate` under
`if d.HasChange("release") || d.HasChange("performance_class")`. -/
def postgreSQLUpdateTemplate (client : Client) (d : ResourceData) (errorPrefix : String)
    (requestBody : PaaSServiceUpdateRequest) : Handler PaaSServiceUpdateRequest :=
  if d.HasChange "release" || d.HasChange "performance_class" then do
    let release := (d.Get "release").asString
    let performanceClass := (d.Get "performance_class").asString
    let r ← call Call.GetPaaSTemplateList
      (getPostgresTemplateUUID client release performanceClass)
    match r with
    | .error err => fail (Errorf (errorPrefix ++ " error: " ++ err.Error))
    | .ok templateUUID => pure { requestBody with PaaSServiceTemplateUUID := templateUUID }
  else pure requestBody

/-- The handler `resourceGridscalePostgreSQLUpdate`. -/
def resourceGridscalePostgreSQLUpdate (h : Helpers) (client : Client) : Handler Unit := do
  let d ← data
  let errorPrefix := "update k8s (" ++ d.Id ++ ") resource -"
  let labels := h.convSOStrings (d.Get "labels").asList
  let requestBody : PaaSServiceUpdateRequest :=
    { Name := (d.Get "name").asString
      Labels := labels
      NetworkUUID := ""
      PaaSServiceTemplateUUID := ""
      Parameters := []
      ResourceLimits := [] }
  let requestBody :=
    if d.HasChange "network_uuid" then
      { requestBody with NetworkUUID := (d.Get "network_uuid").asString }
    else requestBody
  let requestBody ← postgreSQLUpdateTemplate client d errorPrefix requestBody
  let val := (d.GetOk "max_core_count").1
  let requestBody :=
    if (d.GetOk "max_core_count").2 then
      { requestBody with ResourceLimits := [{ Resource := "cores", Limit := val.asInt }] }
    else requestBody
  let err ← call (Call.UpdatePaaSService d.Id requestBody)
    (client.UpdatePaaSService d.Id requestBody)
  match err with
  | some err => fail (Errorf (errorPrefix ++ " error: " ++ err.Error))
  | none => resourceGridscalePostgreSQLRead client

/-- The handler `resourceGridscalePostgreSQLDelete`. -/
def resourceGridscalePostgreSQLDelete (client : Client) : Handler Unit := do
  let d ← data
  let errorPrefix := "delete paas (" ++ d.Id ++ ") resource -"
  let response ← call (Call.DeletePaaSService d.Id) (client.DeletePaaSService d.Id)
  let err := SuppressHTTPErrorCodes response [StatusNotFound]
  match err with
  | some err => fail (Errorf (errorPrefix ++ " error: " ++ err.Error))
  | none => pure ()

/-! ## `resource_server.go` -/

/-- The handler `resourceGridscaleServerDelete`. -/
def resourceGridscaleServerDelete (client : Client) : Handler Unit := do
  let d ← data
  let id := d.Id
  let err ← call (Call.StopServer id) (client.StopServer id)
  match err with
  | some err => fail err
  | none => do
    let err ← call (Call.DeleteServer id) (client.DeleteServer id)
    match err with
    | some err => fail err
    | none => pure ()

/-! ## `datasource_gridscale_server.go` -/

/-- The slice `storages` built under the comment "Get storages". -/
def storagesOf (Storages : List ServerStorageRelationProperties) : List Value :=
  Storages.map (fun value => Value.obj
    [ ("object_uuid", .str value.ObjectUUID)
    , ("bootdevice", .bool value.BootDevice)
    , ("create_time", .str value.CreateTime)
    , ("controller", .int value.Controller)
    , ("target", .int value.Target)
    , ("lun", .int value.Lun)
    , ("license_product_no", .int value.LicenseProductNo)
    , ("bus", .int value.Bus)
    , ("object_name", .str value.ObjectName)
    , ("storage_type", .str value.StorageType)
    , ("last_used_template", .str value.LastUsedTemplate)
    , ("capacity", .int value.Capacity) ])

/-- The loop over `server.Properties.Relations.PublicIPs` on the pair `(ipv4, ipv6)`. -/
def publicIPsOf : List ServerIPRelationProperties → String × String → String × String
  | [], ips => ips
  | ip :: rest, (ipv4, ipv6) =>
    let ipv4 := if ip.Family = 4 then ip.ObjectUUID else ipv4
    let ipv6 := if ip.Family = 6 then ip.ObjectUUID else ipv6
    publicIPsOf rest (ipv4, ipv6)

/-- The loop over `server.Properties.Relations.IsoImages` that writes `isoimage`. -/
def setIsoImages : List ServerIsoImageRelationProperties → Handler Unit
  | [] => pure ()
  | isoimage :: rest => do
    setOrReturn "error setting isoimage: " "isoimage" (.str isoimage.ObjectUUID)
    setIsoImages rest

/-- The branch `if err == nil` of `dataSourceGridscaleServerRead`. The slice `storages`
is built and, as in the source, used by no later statement. -/
def serverReadProperties (h : Helpers) (server : Server) : Handler Unit := do
  let props := server.Properties
  SetId props.ObjectUUID
  setOrReturn "error setting name: " "name" (.str server.Properties.Name)
  setOrReturn "error setting memory: " "memory" (.int server.Properties.Memory)
  setOrReturn "error setting cores: " "cores" (.int server.Properties.Cores)
  setOrReturn "error setting hardware_profile: " "hardware_profile"
    (.str server.Properties.HardwareProfile)
  setOrReturn "error setting location_uuid: " "location_uuid" (.str server.Properties.LocationUUID)
  setOrReturn "error setting power: " "power" (.bool server.Properties.Power)
  setOrReturn "error setting status: " "status" (.str server.Properties.Status)
  setOrReturn "error setting create_time: " "create_time" (.str server.Properties.CreateTime)
  setOrReturn "error setting change_time: " "change_time" (.str server.Properties.ChangeTime)
  setOrReturn "error setting current_price: " "current_price"
    (.float server.Properties.CurrentPrice)
  setOrReturn "error setting availability_zone: " "availability_zone"
    (.str server.Properties.AvailabilityZone)
  setOrReturn "error setting auto_recovery: " "auto_recovery"
    (.bool server.Properties.AutoRecovery)
  setOrReturn "error setting console_token: " "console_token"
    (.str server.Properties.ConsoleToken)
  setOrReturn "error setting legacy: " "legacy" (.bool server.Properties.Legacy)
  setOrReturn "error setting usage_in_minutes_memory: " "usage_in_minutes_memory"
    (.int server.Properties.UsageInMinutesMemory)
  setOrReturn "error setting usage_in_minutes_cores: " "usage_in_minutes_cores"
    (.int server.Properties.UsageInMinutesCores)
  setOrReturn "error setting labels: " "labels"
    (.list (server.Properties.Labels.map Value.str))
  let _storages := storagesOf server.Properties.Relations.Storages
  let networks := h.readServerNetworkRels server.Properties.Relations.Networks
  setOrReturn "error setting network: " "network" networks
  let ips := publicIPsOf server.Properties.Relations.PublicIPs ("", "")
  setOrReturn "error setting ipv4: " "ipv4" (.str ips.1)
  setOrReturn "error setting ipv6: " "ipv6" (.str ips.2)
  setIsoImages server.Properties.Relations.IsoImages
  setOrReturn "error setting labels: " "labels" (.list (props.Labels.map Value.str))

/-- The handler `dataSourceGridscaleServerRead`. -/
def dataSourceGridscaleServerRead (h : Helpers) (client : Client) : Handler Unit := do
  let d ← data
  let id := (d.Get "resource_id").asString
  let r ← call (Call.GetServer id) (client.GetServer id)
  match r with
  | .ok server => serverReadProperties h server
  | .error err => fail err

/-! ## Concrete inputs -/

/-- A schema check that accepts every write. -/
def acceptAll : String → Value → Option GoError := fun _ _ => none

/-- Resource data of a service with ID `svc-1` and one `parameter` entry. -/
def exampleData : ResourceData :=
  { id := "svc-1"
    attrs :=
      [ ("name", .str "db")
      , ("service_template_uuid", .str "tpl-1")
      , ("release", .str "13")
      , ("performance_class", .str "standard")
      , ("parameter", .list
          [.obj [("param", .str "flag"), ("value", .str "true"), ("type", .str "bool")]]) ]
    changed := []
    reject := acceptAll }

/-- A handler state with `exampleData` and no client call made yet. -/
def exampleState : St := { d := exampleData, calls := [] }

/-- A remote service attached to security zone `sz-1`. -/
def exampleService : PaaSService :=
  { Properties :=
    { Name := "db"
      Credentials := []
      SecurityZoneUUID := "sz-1"
      NetworkUUID := "net-0"
      ServiceTemplateUUID := "tpl-1"
      ServiceTemplateCategory := "database"
      UsageInMinutes := 7
      CurrentPrice := 0
      ChangeTime := "2020-01-02"
      CreateTime := "2020-01-01"
      Status := "active"
      ListenPorts := []
      Parameters := []
      ResourceLimits := []
      Labels := [] } }

/-- A server with one attached storage. -/
def exampleServer : Server :=
  { Properties :=
    { ObjectUUID := "srv-1"
      Name := "web"
      Memory := 2
      Cores := 1
      HardwareProfile := "default"
      LocationUUID := "loc-1"
      Power := true
      Status := "active"
      CreateTime := "2020-01-01"
      ChangeTime := "2020-01-02"
      CurrentPrice := 0
      AvailabilityZone := ""
      AutoRecovery := true
      ConsoleToken := ""
      Legacy := false
      UsageInMinutesMemory := 0
      UsageInMinutesCores := 0
      Labels := []
      Relations :=
        { Storages :=
            [ { ObjectUUID := "sto-1", BootDevice := true, CreateTime := "2020-01-01"
                Controller := 0, Target := 0, Lun := 0, LicenseProductNo := 0, Bus := 0
                ObjectName := "disk", StorageType := "storage", LastUsedTemplate := ""
                Capacity := 10 } ]
          Networks := []
          PublicIPs := []
          IsoImages := [] } } }

/-- Two networks, the second of which carries security zone `sz-1`. -/
def exampleNetworks : List Network :=
  [ { Properties := { ObjectUUID := "net-1", Relations := { PaaSSecurityZones := [] } } }
  , { Properties :=
      { ObjectUUID := "net-2", Relations := { PaaSSecurityZones := [{ ObjectUUID := "sz-1" }] } } } ]

/-- A template list with one postgres template and one of another flavour. -/
def exampleTemplates : List PaaSTemplate :=
  [ { Properties :=
      { ObjectUUID := "tpl-9", Flavour := "redis", Release := "13", PerformanceClass := "standard" } }
  , { Properties :=
      { ObjectUUID := "tpl-1", Flavour := "postgres", Release := "13"
        PerformanceClass := "standard" } } ]

/-- A client every call of which succeeds. -/
def exampleClient : Client :=
  { GetPaaSService := fun _ => .ok exampleService
    GetNetworkList := .ok exampleNetworks
    GetPaaSTemplateList := .ok exampleTemplates
    CreatePaaSService := fun _ => .ok { ObjectUUID := "svc-2" }
    UpdatePaaSService := fun _ _ => none
    DeletePaaSService := fun _ => none
    GetServer := fun _ => .ok exampleServer
    StopServer := fun _ => none
    DeleteServer := fun _ => none }

/-- The request error of an object that is already gone. -/
def notFound : GoError := GoError.RequestError 404 "Status code: 404. Error: not found"

/-- A client for which the service, and the server, no longer exists. -/
def goneClient : Client :=
  { exampleClient with
    GetPaaSService := fun _ => .error notFound
    DeletePaaSService := fun _ => some notFound
    StopServer := fun _ => some notFound
    DeleteServer := fun _ => some notFound }

/-- The state of the server data source before its Read: only `resource_id` is set. -/
def serverDataSourceState : St :=
  { d := { id := "", attrs := [("resource_id", .str "srv-1")], changed := [], reject := acceptAll }
    calls := [] }

/-- The request error of a call the API could not serve. -/
def internalError : GoError :=
  GoError.RequestError 500 "Status code: 500. Error: internal server error"

/-- A client whose create, update and delete calls all fail with status 500. -/
def failingClient : Client :=
  { exampleClient with
    CreatePaaSService := fun _ => .error internalError
    UpdatePaaSService := fun _ _ => some internalError
    DeletePaaSService := fun _ => some internalError }

/-- Helpers that know the types `string` and `bool` only. -/
def exampleHelpers : Helpers :=
  { convStrToTypeInterface := fun paramValType value =>
      if paramValType = "string" then .ok (.str value)
      else if paramValType = "bool" then
        if value = "true" then .ok (.bool true)
        else if value = "false" then .ok (.bool false)
        else .error (GoError.errorString "type of value is not bool")
      else .error (GoError.errorString "type is not supported")
    getInterfaceType := fun value =>
      match value with
      | .str _ => .ok "string"
      | .bool _ => .ok "bool"
      | _ => .error (GoError.errorString "type is not supported")
    convInterfaceToString := fun _ value =>
      match value with
      | .str v => (v, none)
      | .bool b => (if b then "true" else "false", none)
      | _ => ("", some (GoError.errorString "type is not supported"))
    convSOStrings := fun values => values.map Value.asString
    readServerNetworkRels := fun rels => Value.list rels }

/-! ## Properties of handler runs -/

/-- A handler run from a state satisfying `P` ends with a value and a state satisfying
`Q`, or with an error and a state satisfying `E`. -/
def Handler.Triple {α : Type} (P : St → Prop) (m : Handler α) (Q : α → St → Prop)
    (E : GoError → St → Prop) : Prop :=
  ∀ s, P s →
    match m s with
    | (s', .ok a) => Q a s'
    | (s', .error e) => E e s'

/-- The security zone of a network, as the spec reads it: whether it is the zone
`SecurityZoneUUID`. -/
def Network.inSecurityZone (SecurityZoneUUID : String) (network : Network) : Bool :=
  network.Properties.Relations.PaaSSecurityZones.any
    (fun zone => decide (zone.ObjectUUID = SecurityZoneUUID))

/-- The network of a security zone, as the spec reads it: the last network of the list
whose security zone is `SecurityZoneUUID`. -/
def networkOfSecurityZone (SecurityZoneUUID : String) (networks : List Network) :
    Option Network :=
  (networks.filter (Network.inSecurityZone SecurityZoneUUID)).getLast?

/-- What the claim on security zones says of a Read that took the state `s` to `s'`,
for the service `svc` and the network list `networks`: `network_uuid` is the UUID of the
network of the service's security zone when the zone is set and has a network, and the
service's own `NetworkUUID` otherwise; with no zone set, the only client call made is
`GetPaaSService`. -/
def NetworkResolved (svc : PaaSService) (networks : List Network) (s s' : St) : Prop :=
  (∀ network, svc.Properties.SecurityZoneUUID ≠ "" →
      networkOfSecurityZone svc.Properties.SecurityZoneUUID networks = some network →
      s'.d.Get "network_uuid" = .str network.Properties.ObjectUUID)
  ∧ (svc.Properties.SecurityZoneUUID = ""
        ∨ networkOfSecurityZone svc.Properties.SecurityZoneUUID networks = none →
      s'.d.Get "network_uuid" = .str svc.Properties.NetworkUUID)
  ∧ (svc.Properties.SecurityZoneUUID = "" →
      s'.calls = s.calls ++ [Call.GetPaaSService s.d.Id])

/-- The conversion of one entry of the `parameter` set: `convStrToTypeInterface` applied
to the entry's `type` and `value`. -/
def convertEntry (h : Helpers) (mapVal : Value) : Except GoError Value :=
  h.convStrToTypeInterface (mapVal.field "type").asString (mapVal.field "value").asString

/-- The typed value the configured parameter set gives the param name `param`: the
converted value of the entry of that name (of the last one, should several entries
carry the name), and none when no entry has the name. -/
def convertedValue (h : Helpers) (entries : List Value) (param : String) : Option Value :=
  match (entries.filter (fun mapVal => decide ((mapVal.field "param").asString = param))).getLast?
  with
  | some mapVal => (convertEntry h mapVal).toOption
  | none => none

/-- Resource data whose one `parameter` entry does not convert: `maybe` is no `bool`. -/
def unconvertibleData : ResourceData :=
  { exampleData with
    attrs :=
      [ ("name", .str "db")
      , ("parameter", .list
          [.obj [("param", .str "flag"), ("value", .str "maybe"), ("type", .str "bool")]]) ] }

/-- The form of the contextual prefix of an error message:
`<operation> <kind> (<id>) resource -`. -/
def errorPrefixOf (operation kind id : String) : String :=
  operation ++ " " ++ kind ++ " (" ++ id ++ ") resource -"

/-- The message of `err` begins with the contextual prefix of `operation`, `kind`, `id`. -/
def HasOperationPrefix (operation kind id : String) (err : GoError) : Prop :=
  ∃ rest, err.Error = errorPrefixOf operation kind id ++ rest

/-- A postgres service template of the given release and performance class, as the claim
on `getPostgresTemplateUUID` reads it. -/
def isPostgresTemplate (release performanceClass : String) (template : PaaSTemplate) : Bool :=
  decide (template.Properties.Flavour = "postgres"
    ∧ template.Properties.Release = release
    ∧ template.Properties.PerformanceClass = performanceClass)

/-! ## The validator of a parameter's `type` and the destroy check of the network test -/

/-- The loop over `supportedPrimTypes` of the `ValidateFunc` of a parameter's `type`, on
the flag `valid`; it breaks at the first primitive type equal to `v`. -/
def primTypeLoop (v : String) : List String → Bool → Bool
  | [], valid => valid
  | primType :: rest, valid => if v = primType then true else primTypeLoop v rest valid

/-- The `ValidateFunc` of the field `type` of a `parameter` entry in `resourceGridscalePaaS`:
it returns the warnings `ws` and the errors `errors`. The table `supportedPrimTypes` of
package `gridscale` is not part of these files and is taken as given. -/
def validateParameterType (supportedPrimTypes : List String) (v : Value) :
    List String × List GoError :=
  let ws : List String := []
  let errors : List GoError := []
  let valid := primTypeLoop v.asString supportedPrimTypes false
  if !valid then
    (ws, errors ++ [Errorf (v.asString
      ++ " is not a valid primitive type. Valid primitive types are: "
      ++ String.intercalate "," supportedPrimTypes)])
  else (ws, errors)

/-- The `terraform.InstanceState` of a resource: its ID. -/
structure InstanceState where
  ID : String

/-- The `terraform.ResourceState` of a resource: its type (the field `Type`) and its
primary instance. -/
structure ResourceState where
  ResourceType : String
  Primary : InstanceState

/-- The test helper `testAccCheckGridscaleNetworkDestroyCheck` of
`resource_gridscale_network_test.go`, on the resources of the root module in the order
the loop visits them; `GetNetwork` is the client's method. -/
def testAccCheckGridscaleNetworkDestroyCheck (GetNetwork : String → Except GoError Network) :
    List (String × ResourceState) → Option GoError
  | [] => none
  | (_, rs) :: rest =>
    if rs.ResourceType ≠ "gridscale_network" then
      testAccCheckGridscaleNetworkDestroyCheck GetNetwork rest
    else
      match GetNetwork rs.Primary.ID with
      | .error err =>
        match err with
        | .RequestError statusCode _ =>
          if statusCode ≠ 404 then
            some (Errorf ("Object " ++ rs.Primary.ID ++ " still exists"))
          else testAccCheckGridscaleNetworkDestroyCheck GetNetwork rest
        | _ => some (Errorf ("Unable to fetching object " ++ rs.Primary.ID))
      | .ok _ => some (Errorf ("Object " ++ rs.Primary.ID ++ " still exists"))

/-- Resource data in which both `network_uuid` and `security_zone_uuid` are configured
and the plan reports `service_template_uuid` as changed. -/
def networkAndZoneData : ResourceData :=
  { id := "svc-1"
    attrs :=
      [ ("name", .str "db")
      , ("service_template_uuid", .str "tpl-2")
      , ("network_uuid", .str "net-7")
      , ("security_zone_uuid", .str "sz-1") ]
    changed := ["service_template_uuid"]
    reject := acceptAll }

/-- Resource data in which only `security_zone_uuid` is configured and nothing changed. -/
def zoneOnlyData : ResourceData :=
  { id := "svc-1"
    attrs :=
      [ ("name", .str "db")
      , ("service_template_uuid", .str "tpl-2")
      , ("security_zone_uuid", .str "sz-1") ]
    changed := []
    reject := acceptAll }

/-- A client whose template list has one postgres template, of release `13` and class
`standard`. -/
def standardOnlyClient : Client :=
  { exampleClient with
    GetPaaSTemplateList := .ok
      [ { Properties :=
          { ObjectUUID := "tpl-1", Flavour := "postgres", Release := "13"
            PerformanceClass := "standard" } } ] }

/-- The root module after a destroy: a network and a resource of another type. -/
def destroyedResources : List (String × ResourceState) :=
  [ ("gridscale_network.foo", { ResourceType := "gridscale_network", Primary := { ID := "net-1" } })
  , ("gridscale_server.bar", { ResourceType := "gridscale_server", Primary := { ID := "srv-1" } }) ]

/-- A client for which every network is gone. -/
def networksGone : String → Except GoError Network := fun _ => .error notFound

/-- What the claim on the create request says of the request `requestBody` built from
the configuration `d`: never both a network and a security zone; the configured
`network_uuid` and no security zone when `network_uuid` is set; the configured
`security_zone_uuid` and no network when only `security_zone_uuid` is set. -/
def NetworkPrecedence (d : ResourceData) (requestBody : PaaSServiceCreateRequest) : Prop :=
  ¬ (requestBody.NetworkUUID ≠ "" ∧ requestBody.PaaSSecurityZoneUUID ≠ "")
  ∧ (∀ network, d.Get "network_uuid" = .str network → network ≠ "" →
      requestBody.NetworkUUID = network ∧ requestBody.PaaSSecurityZoneUUID = "")
  ∧ (∀ zone, (d.Get "network_uuid").isZero = true → d.Get "security_zone_uuid" = .str zone →
      zone ≠ "" →
      requestBody.PaaSSecurityZoneUUID = zone ∧ requestBody.NetworkUUID = "")

/-- The attribute writes `dataSourceGridscaleServerRead` makes for the server `server`,
in the order it makes them. -/
def serverWrites (h : Helpers) (server : Server) : List (String × Value) :=
  [ ("name", .str server.Properties.Name)
  , ("memory", .int server.Properties.Memory)
  , ("cores", .int server.Properties.Cores)
  , ("hardware_profile", .str server.Properties.HardwareProfile)
  , ("location_uuid", .str server.Properties.LocationUUID)
  , ("power", .bool server.Properties.Power)
  , ("status", .str server.Properties.Status)
  , ("create_time", .str server.Properties.CreateTime)
  , ("change_time", .str server.Properties.ChangeTime)
  , ("current_price", .float server.Properties.CurrentPrice)
  , ("availability_zone", .str server.Properties.AvailabilityZone)
  , ("auto_recovery", .bool server.Properties.AutoRecovery)
  , ("console_token", .str server.Properties.ConsoleToken)
  , ("legacy", .bool server.Properties.Legacy)
  , ("usage_in_minutes_memory", .int server.Properties.UsageInMinutesMemory)
  , ("usage_in_minutes_cores", .int server.Properties.UsageInMinutesCores)
  , ("labels", .list (server.Properties.Labels.map Value.str))
  , ("network", h.readServerNetworkRels server.Properties.Relations.Networks)
  , ("ipv4", .str (publicIPsOf server.Properties.Relations.PublicIPs ("", "")).1)
  , ("ipv6", .str (publicIPsOf server.Properties.Relations.PublicIPs ("", "")).2) ]
  ++ server.Properties.Relations.IsoImages.map
      (fun isoimage => ("isoimage", Value.str isoimage.ObjectUUID))

/-! ## Basic facts about handler steps -/

section Steps

variable {α β : Type}

@[simp] theorem Handler.bind_run (m : Handler α) (f : α → Handler β) (s : St) :
    (m >>= f) s = Handler.andThen m f s := rfl

@[simp] theorem Handler.pure_run (a : α) (s : St) : (pure a : Handler α) s = (s, .ok a) := rfl

@[simp] theorem Handler.fail_run (err : GoError) (s : St) :
    (Handler.fail err : Handler α) s = (s, .error err) := rfl

@[simp] theorem Handler.data_run (s : St) : Handler.data s = (s, .ok s.d) := rfl

@[simp] theorem Handler.SetId_run (v : String) (s : St) :
    Handler.SetId v s = ({ s with d := s.d.SetId v }, .ok ()) := rfl

@[simp] theorem Handler.call_run (c : Call) (response : α) (s : St) :
    Handler.call c response s = ({ s with calls := s.calls ++ [c] }, .ok response) := rfl

end Steps

section Triples

variable {α β : Type}

theorem Handler.Triple.bind {P : St → Prop} {m : Handler α} {Q : α → St → Prop}
    {f : α → Handler β} {R : β → St → Prop} {E : GoError → St → Prop}
    (hm : Handler.Triple P m Q E) (hf : ∀ a, Handler.Triple (Q a) (f a) R E) :
    Handler.Triple P (m >>= f) R E := by
  intro s hs
  have h1 := hm s hs
  simp only [Handler.bind_run, Handler.andThen]
  rcases hms : m s with ⟨s', r⟩
  rw [hms] at h1
  cases r with
  | ok a => exact hf a s' h1
  | error e => exact h1

theorem Handler.Triple.pure {P : St → Prop} {a : α} {Q : α → St → Prop}
    {E : GoError → St → Prop} (h : ∀ s, P s → Q a s) :
    Handler.Triple P (Pure.pure a : Handler α) Q E := fun s hs => h s hs

theorem Handler.Triple.fail {P : St → Prop} {err : GoError} {Q : α → St → Prop}
    {E : GoError → St → Prop} (h : ∀ s, P s → E err s) :
    Handler.Triple P (Handler.fail err : Handler α) Q E := fun s hs => h s hs

theorem Handler.Triple.data {P : St → Prop} {Q : ResourceData → St → Prop}
    {E : GoError → St → Prop} (h : ∀ s, P s → Q s.d s) :
    Handler.Triple P Handler.data Q E := fun s hs => h s hs

theorem Handler.Triple.SetId {P : St → Prop} {v : String} {Q : Unit → St → Prop}
    {E : GoError → St → Prop} (h : ∀ s, P s → Q () { s with d := s.d.SetId v }) :
    Handler.Triple P (Handler.SetId v) Q E := fun s hs => h s hs

theorem Handler.Triple.call {P : St → Prop} {c : Call} {response : α} {Q : α → St → Prop}
    {E : GoError → St → Prop} (h : ∀ s, P s → Q response { s with calls := s.calls ++ [c] }) :
    Handler.Triple P (Handler.call c response) Q E := fun s hs => h s hs

theorem Handler.Triple.weaken {P P' : St → Prop} {m : Handler α} {Q Q' : α → St → Prop}
    {E E' : GoError → St → Prop} (hm : Handler.Triple P' m Q' E')
    (hP : ∀ s, P s → P' s) (hQ : ∀ a s, Q' a s → Q a s) (hE : ∀ e s, E' e s → E e s) :
    Handler.Triple P m Q E := by
  intro s hs
  have h1 := hm s (hP s hs)
  rcases hms : m s with ⟨s', r⟩
  rw [hms] at h1
  cases r with
  | ok a => exact hQ a s' h1
  | error e => exact hE e s' h1

/-- The run of `setOrReturn`: the attribute is written, or the handler ends with the
SDK's error behind `text` and the state as it was. -/
theorem setOrReturn_run (text key : String) (value : Value) (s : St) :
    setOrReturn text key value s =
      match s.d.reject key value with
      | some err => (s, .error (Errorf (text ++ err.Error)))
      | none => ({ s with d := { s.d with attrs := mapPut s.d.attrs key value } }, .ok ()) := by
  simp only [setOrReturn, Handler.bind_run, Handler.andThen, Handler.Set, ResourceData.Set]
  cases hr : s.d.reject key value <;> rfl

theorem Handler.Triple.setOrReturn {P : St → Prop} {text key : String} {value : Value}
    {Q : Unit → St → Prop} {E : GoError → St → Prop}
    (hok : ∀ s, P s → s.d.reject key value = none →
      Q () { s with d := { s.d with attrs := mapPut s.d.attrs key value } })
    (herr : ∀ s err, P s → s.d.reject key value = some err → E (Errorf (text ++ err.Error)) s) :
    Handler.Triple P (Gridscale.setOrReturn text key value) Q E := by
  intro s hs
  rw [setOrReturn_run]
  cases hr : s.d.reject key value with
  | none => exact hok s hs hr
  | some err => exact herr s err hs hr

end Triples

/-! ## Association lists -/

theorem mapGet_mapPut_same {α : Type} (m : List (String × α)) (k : String) (v : α) :
    mapGet (mapPut m k v) k = some v := by
  induction m with
  | nil => simp [mapPut, mapGet]
  | cons p rest ih =>
    obtain ⟨k', v'⟩ := p
    by_cases hk : k' = k
    · simp [mapPut, mapGet, hk]
    · simp [mapPut, mapGet, hk, ih]

theorem mapGet_mapPut_other {α : Type} (m : List (String × α)) (k k' : String) (v : α)
    (hne : k ≠ k') : mapGet (mapPut m k v) k' = mapGet m k' := by
  induction m with
  | nil => simp [mapPut, mapGet, hne]
  | cons p rest ih =>
    obtain ⟨k₁, v₁⟩ := p
    by_cases hk : k₁ = k
    · subst hk
      simp [mapPut, mapGet, hne]
    · by_cases hk' : k₁ = k'
      · subst hk'
        simp [mapPut, mapGet, hk]
      · simp [mapPut, mapGet, hk, hk', ih]

/-- An attribute reads back the value written last. -/
theorem Get_put_same (d : ResourceData) (k : String) (v : Value) :
    ResourceData.Get { d with attrs := mapPut d.attrs k v } k = v := by
  simp [ResourceData.Get, mapGet_mapPut_same]

/-- A write leaves every other attribute as it was. -/
theorem Get_put_other (d : ResourceData) (k k' : String) (v : Value) (hne : k ≠ k') :
    ResourceData.Get { d with attrs := mapPut d.attrs k v } k' = ResourceData.Get d k' := by
  simp [ResourceData.Get, mapGet_mapPut_other _ _ _ _ hne]

/-! ## Delete handlers and HTTP 404 -/

/-- C1. For the PaaS and PostgreSQL Delete handlers and every resource ID: when the
client's `DeletePaaSService` fails with a request error of status 404 the handler
returns no error, and when it fails with any other error the handler returns a
non-nil error. -/
theorem delete_suppresses_exactly_404 (client : Client) (s : St) (err : GoError)
    (hfail : client.DeletePaaSService s.d.Id = some err) :
    ((∃ text, err = GoError.RequestError 404 text) →
        (resourceGridscalePaaSServiceDelete client s).2 = .ok ()
        ∧ (resourceGridscalePostgreSQLDelete client s).2 = .ok ())
    ∧ ((¬ ∃ text, err = GoError.RequestError 404 text) →
        (∃ e, (resourceGridscalePaaSServiceDelete client s).2 = .error e)
        ∧ (∃ e, (resourceGridscalePostgreSQLDelete client s).2 = .error e)) := by
  constructor
  · rintro ⟨text, rfl⟩
    simp [resourceGridscalePaaSServiceDelete, resourceGridscalePostgreSQLDelete,
      Handler.andThen, hfail, SuppressHTTPErrorCodes, StatusNotFound]
  · intro hne
    cases err with
    | RequestError code text =>
      have hcode : code ≠ 404 := fun hc => hne ⟨text, by rw [hc]⟩
      simp [resourceGridscalePaaSServiceDelete, resourceGridscalePostgreSQLDelete,
        Handler.andThen, hfail, SuppressHTTPErrorCodes, StatusNotFound, hcode]
    | errorString text =>
      simp [resourceGridscalePaaSServiceDelete, resourceGridscalePostgreSQLDelete,
        Handler.andThen, hfail, SuppressHTTPErrorCodes, StatusNotFound]

/-- A concrete run of C1: the service is already gone and both handlers return `nil`. -/
theorem delete_suppresses_exactly_404_witness :
    goneClient.DeletePaaSService exampleState.d.Id = some notFound
    ∧ (resourceGridscalePaaSServiceDelete goneClient exampleState).2 = .ok ()
    ∧ (resourceGridscalePostgreSQLDelete goneClient exampleState).2 = .ok () :=
  ⟨rfl, (delete_suppresses_exactly_404 goneClient exampleState notFound rfl).1 ⟨_, rfl⟩⟩

/-- C2, evaluated on the code: for a server that is already gone, so that the client's
`StopServer` reports HTTP 404, `resourceGridscaleServerDelete` returns that error instead
of `nil`, and it does not go on to `DeleteServer`. -/
theorem server_delete_returns_the_404 :
    (resourceGridscaleServerDelete goneClient exampleState).2 = .error notFound
    ∧ (resourceGridscaleServerDelete goneClient exampleState).1.calls
        = [Call.StopServer "svc-1"] := by
  constructor <;> rfl

/-! ## Read handlers when `GetPaaSService` fails -/

/-- C3. For the PaaS and PostgreSQL Read handlers: when `GetPaaSService` fails with a
request error of status 404 the handler sets the ID to the empty string, returns no
error, writes no attribute and makes no further client call (the network list is not
requested); when it fails with any other error the handler returns a non-nil error and
leaves the resource data, ID and attributes, as they were. -/
theorem read_on_get_failure (h : Helpers) (client : Client) (s : St) (err : GoError)
    (hfail : client.GetPaaSService s.d.Id = .error err) :
    ((∃ text, err = GoError.RequestError 404 text) →
        resourceGridscalePaaSServiceRead h client s
          = ({ d := s.d.SetId "", calls := s.calls ++ [Call.GetPaaSService s.d.Id] },
              .ok ())
        ∧ resourceGridscalePostgreSQLRead client s
          = ({ d := s.d.SetId "", calls := s.calls ++ [Call.GetPaaSService s.d.Id] },
              .ok ()))
    ∧ ((¬ ∃ text, err = GoError.RequestError 404 text) →
        (∃ e, resourceGridscalePaaSServiceRead h client s
          = ({ d := s.d, calls := s.calls ++ [Call.GetPaaSService s.d.Id] }, .error e))
        ∧ (∃ e, resourceGridscalePostgreSQLRead client s
          = ({ d := s.d, calls := s.calls ++ [Call.GetPaaSService s.d.Id] }, .error e))) := by
  constructor
  · rintro ⟨text, rfl⟩
    simp [resourceGridscalePaaSServiceRead, resourceGridscalePostgreSQLRead,
      Handler.andThen, hfail]
  · intro hne
    cases err with
    | RequestError code text =>
      have hcode : code ≠ 404 := fun hc => hne ⟨text, by rw [hc]⟩
      simp [resourceGridscalePaaSServiceRead, resourceGridscalePostgreSQLRead,
        Handler.andThen, hfail, hcode]
    | errorString text =>
      simp [resourceGridscalePaaSServiceRead, resourceGridscalePostgreSQLRead,
        Handler.andThen, hfail]

/-- A concrete run of C3: the service is gone, the ID is cleared and only
`GetPaaSService` was called. -/
theorem read_on_get_failure_witness :
    goneClient.GetPaaSService exampleState.d.Id = .error notFound
    ∧ (resourceGridscalePaaSServiceRead exampleHelpers goneClient exampleState).1.d.id = ""
    ∧ (resourceGridscalePaaSServiceRead exampleHelpers goneClient exampleState).1.d.attrs
        = exampleData.attrs
    ∧ (resourceGridscalePostgreSQLRead goneClient exampleState).2 = .ok () := by
  have key := (read_on_get_failure exampleHelpers goneClient exampleState notFound rfl).1
    ⟨_, rfl⟩
  exact ⟨rfl, by rw [key.1]; rfl, by rw [key.1]; rfl, by rw [key.2]⟩

/-! ## Security zone to network resolution -/

/-- A write of another attribute keeps the call log and the value of attribute `k'`. -/
theorem setOrReturn_keeps (text k k' : String) (v w : Value) (c : List Call) (hne : k ≠ k') :
    Handler.Triple (fun s => s.calls = c ∧ s.d.Get k' = w) (setOrReturn text k v)
      (fun _ s => s.calls = c ∧ s.d.Get k' = w) (fun _ _ => True) :=
  Handler.Triple.setOrReturn
    (fun _ hs _ => ⟨hs.1, by rw [Get_put_other _ _ _ _ hne]; exact hs.2⟩)
    (fun _ _ _ _ => True.intro)

/-- A write keeps the call log. -/
theorem setOrReturn_keeps_calls (text k : String) (v : Value) (c : List Call) :
    Handler.Triple (fun s => s.calls = c) (setOrReturn text k v)
      (fun _ s => s.calls = c) (fun _ _ => True) :=
  Handler.Triple.setOrReturn (fun _ hs _ => hs) (fun _ _ _ _ => True.intro)

/-- A write of attribute `k` keeps the call log and makes `v` the value of `k`. -/
theorem setOrReturn_writes (text k : String) (v : Value) (c : List Call) :
    Handler.Triple (fun s => s.calls = c) (setOrReturn text k v)
      (fun _ s => s.calls = c ∧ s.d.Get k = v) (fun _ _ => True) :=
  Handler.Triple.setOrReturn (fun _ hs _ => ⟨hs, Get_put_same _ _ _⟩)
    (fun _ _ _ _ => True.intro)

/-- With at most one security zone in a network, the test of the loop (the first zone
is the service's) is the spec's test (the network's zone is the service's). -/
theorem inSecurityZone_of_first (SecurityZoneUUID : String) (network : Network)
    (hone : network.Properties.Relations.PaaSSecurityZones.length ≤ 1) :
    network.inSecurityZone SecurityZoneUUID =
      match network.Properties.Relations.PaaSSecurityZones with
      | first :: _ => decide (first.ObjectUUID = SecurityZoneUUID)
      | [] => false := by
  unfold Network.inSecurityZone
  cases hz : network.Properties.Relations.PaaSSecurityZones with
  | nil => simp
  | cons first rest =>
    cases rest with
    | nil => simp
    | cons second rest' => rw [hz] at hone; simp at hone

theorem networkOfSecurityZone_cons (SecurityZoneUUID : String) (network : Network)
    (rest : List Network) (cur : String) :
    ((networkOfSecurityZone SecurityZoneUUID (network :: rest)).map
        (fun n => n.Properties.ObjectUUID)).getD cur
      = ((networkOfSecurityZone SecurityZoneUUID rest).map
          (fun n => n.Properties.ObjectUUID)).getD
          (if network.inSecurityZone SecurityZoneUUID then network.Properties.ObjectUUID
            else cur) := by
  unfold networkOfSecurityZone
  by_cases hin : network.inSecurityZone SecurityZoneUUID = true
  · rw [List.filter_cons_of_pos hin]
    cases hl : (rest.filter (Network.inSecurityZone SecurityZoneUUID)) with
    | nil => simp [hin]
    | cons a l =>
      rw [List.getLast?_cons_cons]
      cases hlast : (a :: l).getLast? with
      | none => simp at hlast
      | some b => simp [hin]
  · rw [List.filter_cons_of_neg hin]
    simp [hin]

/-- The loop over the networks: from `network_uuid = cur` it ends, when no write fails,
with `network_uuid` the UUID of the last network of the security zone, or `cur` when
there is none; it makes no client call. -/
theorem setSecurityZoneNetwork_post (errorPrefix SecurityZoneUUID : String) (c : List Call) :
    ∀ (networks : List Network),
      (∀ n ∈ networks, n.Properties.Relations.PaaSSecurityZones.length ≤ 1) →
      ∀ (cur : String),
      Handler.Triple (fun s => s.calls = c ∧ s.d.Get "network_uuid" = .str cur)
        (setSecurityZoneNetwork errorPrefix SecurityZoneUUID networks)
        (fun _ s => s.calls = c ∧ s.d.Get "network_uuid" = .str
          (((networkOfSecurityZone SecurityZoneUUID networks).map
            (fun n => n.Properties.ObjectUUID)).getD cur))
        (fun _ _ => True) := by
  intro networks
  induction networks with
  | nil =>
    intro _ cur
    exact Handler.Triple.pure (fun _ hs => by simpa [networkOfSecurityZone] using hs)
  | cons network rest ih =>
    intro hone cur
    have hrest : ∀ n ∈ rest, n.Properties.Relations.PaaSSecurityZones.length ≤ 1 :=
      fun n hn => hone n (List.mem_cons_of_mem _ hn)
    have hfirst := inSecurityZone_of_first SecurityZoneUUID network
      (hone network (List.mem_cons_self _ _))
    rw [networkOfSecurityZone_cons]
    unfold setSecurityZoneNetwork
    refine Handler.Triple.bind ?_ (fun _ => ih hrest _)
    cases hz : network.Properties.Relations.PaaSSecurityZones with
    | nil =>
      rw [hz] at hfirst
      simp only [hfirst]
      exact Handler.Triple.pure (fun s hs => by simpa using hs)
    | cons first others =>
      rw [hz] at hfirst
      simp only [hfirst]
      by_cases heq : first.ObjectUUID = SecurityZoneUUID
      · simp only [heq, if_true, decide_True]
        exact Handler.Triple.weaken (setOrReturn_writes _ _ _ c) (fun s hs => hs.1)
          (fun _ s hs => hs) (fun _ _ _ => True.intro)
      · simp only [heq, if_false, decide_False]
        exact Handler.Triple.pure (fun s hs => by simpa using hs)

/-- The tail of the Read handlers: from `network_uuid = cur` it ends, when it succeeds,
with the network of the security zone resolved, and it requests the network list only
when a security zone is set. -/
theorem lookForSecurityZoneNetwork_post (client : Client)
    (errorPrefix SecurityZoneUUID cur : String) (networks : List Network) (c : List Call)
    (hnet : SecurityZoneUUID ≠ "" → client.GetNetworkList = .ok networks)
    (hone : ∀ n ∈ networks, n.Properties.Relations.PaaSSecurityZones.length ≤ 1) :
    Handler.Triple (fun s => s.calls = c ∧ s.d.Get "network_uuid" = .str cur)
      (lookForSecurityZoneNetwork client errorPrefix SecurityZoneUUID)
      (fun _ s =>
        (SecurityZoneUUID = "" → s.calls = c ∧ s.d.Get "network_uuid" = .str cur)
        ∧ (SecurityZoneUUID ≠ "" → s.d.Get "network_uuid" = .str
            (((networkOfSecurityZone SecurityZoneUUID networks).map
              (fun n => n.Properties.ObjectUUID)).getD cur)))
      (fun _ _ => True) := by
  unfold lookForSecurityZoneNetwork
  by_cases hz : SecurityZoneUUID = ""
  · rw [if_pos hz]
    exact Handler.Triple.pure (fun s hs => ⟨fun _ => hs, fun hne => absurd hz hne⟩)
  · rw [if_neg hz, hnet hz]
    refine Handler.Triple.bind
      (Q := fun r s => r = .ok networks
        ∧ s.calls = c ++ [Call.GetNetworkList] ∧ s.d.Get "network_uuid" = .str cur)
      (Handler.Triple.call (fun s hs => ⟨rfl, by simp [hs.1], hs.2⟩)) (fun r => ?_)
    intro s hs
    obtain ⟨hr, hs'⟩ := hs
    subst hr
    dsimp only
    have hloop := setSecurityZoneNetwork_post errorPrefix SecurityZoneUUID
      (c ++ [Call.GetNetworkList]) networks hone cur s hs'
    rcases hrun : setSecurityZoneNetwork errorPrefix SecurityZoneUUID networks s with ⟨s', r⟩
    rw [hrun] at hloop
    cases r with
    | error e => exact True.intro
    | ok u => exact ⟨fun h0 => absurd h0 hz, fun _ => hloop.2⟩

theorem setPaaSCredentials_keeps_calls (errorPrefix : String) (creds : List Credential)
    (c : List Call) :
    Handler.Triple (fun s => s.calls = c) (setPaaSCredentials errorPrefix creds)
      (fun _ s => s.calls = c) (fun _ _ => True) := by
  unfold setPaaSCredentials
  cases creds with
  | nil => exact Handler.Triple.pure (fun _ hs => hs)
  | cons first rest =>
    dsimp only
    refine Handler.Triple.bind (setOrReturn_keeps_calls _ _ _ c) (fun _ => ?_)
    refine Handler.Triple.bind (setOrReturn_keeps_calls _ _ _ c) (fun _ => ?_)
    exact setOrReturn_keeps_calls _ _ _ c

theorem setPostgreSQLCredentials_keeps_calls (errorPrefix : String) (creds : List Credential)
    (c : List Call) :
    Handler.Triple (fun s => s.calls = c) (setPostgreSQLCredentials errorPrefix creds)
      (fun _ s => s.calls = c) (fun _ _ => True) := by
  unfold setPostgreSQLCredentials
  cases creds with
  | nil => exact Handler.Triple.pure (fun _ hs => hs)
  | cons first rest =>
    dsimp only
    refine Handler.Triple.bind (setOrReturn_keeps_calls _ _ _ c) (fun _ => ?_)
    exact setOrReturn_keeps_calls _ _ _ c

theorem setMaxCoreCount_keeps (errorPrefix : String) (w : Value) (c : List Call) :
    ∀ (limits : List ResourceLimit),
      Handler.Triple (fun s => s.calls = c ∧ s.d.Get "network_uuid" = w)
        (setMaxCoreCount errorPrefix limits)
        (fun _ s => s.calls = c ∧ s.d.Get "network_uuid" = w) (fun _ _ => True) := by
  intro limits
  induction limits with
  | nil => exact Handler.Triple.pure (fun _ hs => hs)
  | cons value rest ih =>
    unfold setMaxCoreCount
    refine Handler.Triple.bind ?_ (fun _ => ih)
    by_cases hcores : value.Resource = "cores"
    · rw [if_pos hcores]
      exact setOrReturn_keeps _ _ _ _ _ c (by decide)
    · rw [if_neg hcores]
      exact Handler.Triple.pure (fun _ hs => hs)

/-- The body of the PaaS Read handler resolves `network_uuid`. -/
theorem paasReadProperties_post (h : Helpers) (client : Client) (errorPrefix : String)
    (props : PaaSServiceProperties) (networks : List Network) (c : List Call)
    (hnet : props.SecurityZoneUUID ≠ "" → client.GetNetworkList = .ok networks)
    (hone : ∀ n ∈ networks, n.Properties.Relations.PaaSSecurityZones.length ≤ 1) :
    Handler.Triple (fun s => s.calls = c) (paasReadProperties h client errorPrefix props)
      (fun _ s =>
        (props.SecurityZoneUUID = "" →
          s.calls = c ∧ s.d.Get "network_uuid" = .str props.NetworkUUID)
        ∧ (props.SecurityZoneUUID ≠ "" → s.d.Get "network_uuid" = .str
            (((networkOfSecurityZone props.SecurityZoneUUID networks).map
              (fun n => n.Properties.ObjectUUID)).getD props.NetworkUUID)))
      (fun _ _ => True) := by
  unfold paasReadProperties
  dsimp only
  refine Handler.Triple.bind (setOrReturn_keeps_calls _ _ _ c) (fun _ => ?_)
  refine Handler.Triple.bind (setPaaSCredentials_keeps_calls _ _ c) (fun _ => ?_)
  refine Handler.Triple.bind (setOrReturn_keeps_calls _ _ _ c) (fun _ => ?_)
  refine Handler.Triple.bind (setOrReturn_writes _ _ _ c) (fun _ => ?_)
  iterate 8
    refine Handler.Triple.bind (setOrReturn_keeps _ _ "network_uuid" _ _ c (by decide))
      (fun _ => ?_)
  cases hrp : readParameters h errorPrefix [] props.Parameters with
  | error e => exact Handler.Triple.fail (fun _ _ => True.intro)
  | ok parameters =>
    dsimp only
    iterate 3
      refine Handler.Triple.bind (setOrReturn_keeps _ _ "network_uuid" _ _ c (by decide))
        (fun _ => ?_)
    exact lookForSecurityZoneNetwork_post client errorPrefix _ _ networks c hnet hone

/-- The body of the PostgreSQL Read handler resolves `network_uuid`. -/
theorem postgreSQLReadProperties_post (client : Client) (errorPrefix : String)
    (props : PaaSServiceProperties) (networks : List Network) (c : List Call)
    (hnet : props.SecurityZoneUUID ≠ "" → client.GetNetworkList = .ok networks)
    (hone : ∀ n ∈ networks, n.Properties.Relations.PaaSSecurityZones.length ≤ 1) :
    Handler.Triple (fun s => s.calls = c) (postgreSQLReadProperties client errorPrefix props)
      (fun _ s =>
        (props.SecurityZoneUUID = "" →
          s.calls = c ∧ s.d.Get "network_uuid" = .str props.NetworkUUID)
        ∧ (props.SecurityZoneUUID ≠ "" → s.d.Get "network_uuid" = .str
            (((networkOfSecurityZone props.SecurityZoneUUID networks).map
              (fun n => n.Properties.ObjectUUID)).getD props.NetworkUUID)))
      (fun _ _ => True) := by
  unfold postgreSQLReadProperties
  dsimp only
  refine Handler.Triple.bind (setOrReturn_keeps_calls _ _ _ c) (fun _ => ?_)
  refine Handler.Triple.bind (setPostgreSQLCredentials_keeps_calls _ _ c) (fun _ => ?_)
  refine Handler.Triple.bind (setOrReturn_keeps_calls _ _ _ c) (fun _ => ?_)
  refine Handler.Triple.bind (setOrReturn_writes _ _ _ c) (fun _ => ?_)
  iterate 7
    refine Handler.Triple.bind (setOrReturn_keeps _ _ "network_uuid" _ _ c (by decide))
      (fun _ => ?_)
  refine Handler.Triple.bind (setMaxCoreCount_keeps _ _ c _) (fun _ => ?_)
  refine Handler.Triple.bind (setOrReturn_keeps _ _ "network_uuid" _ _ c (by decide))
    (fun _ => ?_)
  exact lookForSecurityZoneNetwork_post client errorPrefix _ _ networks c hnet hone

/-- What a Read body establishes is what `NetworkResolved` asks for. -/
theorem networkResolved_of_post (svc : PaaSService) (networks : List Network) (s s' : St)
    (hpost : (svc.Properties.SecurityZoneUUID = "" →
        s'.calls = s.calls ++ [Call.GetPaaSService s.d.Id]
        ∧ s'.d.Get "network_uuid" = .str svc.Properties.NetworkUUID)
      ∧ (svc.Properties.SecurityZoneUUID ≠ "" → s'.d.Get "network_uuid" = .str
          (((networkOfSecurityZone svc.Properties.SecurityZoneUUID networks).map
            (fun n => n.Properties.ObjectUUID)).getD svc.Properties.NetworkUUID))) :
    NetworkResolved svc networks s s' := by
  refine ⟨fun network hz hsome => ?_, fun hcase => ?_, fun hz => (hpost.1 hz).1⟩
  · rw [hpost.2 hz, hsome]
    rfl
  · by_cases hz : svc.Properties.SecurityZoneUUID = ""
    · exact (hpost.1 hz).2
    · rcases hcase with h0 | hnone
      · exact absurd h0 hz
      · rw [hpost.2 hz, hnone]
        rfl

/-- C4. Security-zone-to-network resolution in the PaaS and PostgreSQL Read handlers:
for every service and every network list in which each network carries at most one
security zone, after a successful Read `network_uuid` is the object UUID of the (last)
network whose security zone is the service's, when that zone is set and such a network
exists, and the service's own `NetworkUUID` otherwise; with no zone set the network list
is not fetched. -/
theorem read_resolves_network_uuid (h : Helpers) (client : Client) (s : St)
    (svc : PaaSService) (networks : List Network)
    (hget : client.GetPaaSService s.d.Id = .ok svc)
    (hnet : svc.Properties.SecurityZoneUUID ≠ "" → client.GetNetworkList = .ok networks)
    (hone : ∀ n ∈ networks, n.Properties.Relations.PaaSSecurityZones.length ≤ 1) :
    (∀ s', resourceGridscalePaaSServiceRead h client s = (s', .ok ()) →
        NetworkResolved svc networks s s')
    ∧ (∀ s', resourceGridscalePostgreSQLRead client s = (s', .ok ()) →
        NetworkResolved svc networks s s') := by
  constructor
  · intro s' hrun
    have hbody := paasReadProperties_post h client ("read paas (" ++ s.d.Id ++ ") resource -")
      svc.Properties networks (s.calls ++ [Call.GetPaaSService s.d.Id]) hnet hone
      { s with calls := s.calls ++ [Call.GetPaaSService s.d.Id] } rfl
    simp only [resourceGridscalePaaSServiceRead, Handler.bind_run, Handler.andThen,
      Handler.data_run, Handler.call_run, hget] at hrun
    rw [hrun] at hbody
    exact networkResolved_of_post svc networks s s' hbody
  · intro s' hrun
    have hbody := postgreSQLReadProperties_post client
      ("read paas (" ++ s.d.Id ++ ") resource -")
      svc.Properties networks (s.calls ++ [Call.GetPaaSService s.d.Id]) hnet hone
      { s with calls := s.calls ++ [Call.GetPaaSService s.d.Id] } rfl
    simp only [resourceGridscalePostgreSQLRead, Handler.bind_run, Handler.andThen,
      Handler.data_run, Handler.call_run, hget] at hrun
    rw [hrun] at hbody
    exact networkResolved_of_post svc networks s s' hbody

/-- A run that ends with `r` is the pair of its final state and `r`. -/
theorem run_eq_of_snd {α : Type} {p : St × Except GoError α} {r : Except GoError α}
    (h : p.2 = r) : p = (p.1, r) := by
  cases p
  cases h
  rfl

/-- On the example inputs the PaaS Read handler succeeds. -/
theorem example_paas_read_succeeds :
    (resourceGridscalePaaSServiceRead exampleHelpers exampleClient exampleState).2 = .ok () := by
  simp [resourceGridscalePaaSServiceRead, paasReadProperties, setOrReturn_run, Handler.andThen,
    exampleClient, exampleState, exampleData, exampleService, acceptAll, setPaaSCredentials,
    readParameters, lookForSecurityZoneNetwork, exampleNetworks, setSecurityZoneNetwork,
    ResourceData.Id]

/-- On the example inputs the PostgreSQL Read handler succeeds. -/
theorem example_postgresql_read_succeeds :
    (resourceGridscalePostgreSQLRead exampleClient exampleState).2 = .ok () := by
  simp [resourceGridscalePostgreSQLRead, postgreSQLReadProperties, setOrReturn_run,
    Handler.andThen, exampleClient, exampleState, exampleData, exampleService, acceptAll,
    setPostgreSQLCredentials, setMaxCoreCount, lookForSecurityZoneNetwork, exampleNetworks,
    setSecurityZoneNetwork, ResourceData.Id]

/-- A concrete run of C4: the service is in zone `sz-1`, which is the zone of network
`net-2`, and both Read handlers succeed and end with `network_uuid = net-2`. -/
theorem read_resolves_network_uuid_witness :
    (resourceGridscalePaaSServiceRead exampleHelpers exampleClient exampleState).2 = .ok ()
    ∧ (resourceGridscalePaaSServiceRead exampleHelpers exampleClient exampleState).1.d.Get
        "network_uuid" = .str "net-2"
    ∧ (resourceGridscalePostgreSQLRead exampleClient exampleState).2 = .ok ()
    ∧ (resourceGridscalePostgreSQLRead exampleClient exampleState).1.d.Get
        "network_uuid" = .str "net-2" := by
  have key := read_resolves_network_uuid exampleHelpers exampleClient exampleState
    exampleService exampleNetworks rfl (fun _ => rfl) (by decide)
  have hzone : networkOfSecurityZone exampleService.Properties.SecurityZoneUUID exampleNetworks
      = some { Properties :=
                { ObjectUUID := "net-2"
                  Relations := { PaaSSecurityZones := [{ ObjectUUID := "sz-1" }] } } } := rfl
  have hset : exampleService.Properties.SecurityZoneUUID ≠ "" := by decide
  exact ⟨example_paas_read_succeeds,
    (key.1 _ (run_eq_of_snd example_paas_read_succeeds)).1 _ hset hzone,
    example_postgresql_read_succeeds,
    (key.2 _ (run_eq_of_snd example_postgresql_read_succeeds)).1 _ hset hzone⟩

/-! ## Parameter coercion in Create and Update -/

theorem convertParameters_cons (h : Helpers) (wrap : GoError → GoError) (mapVal : Value)
    (rest : List Value) (params : List (String × Value)) :
    convertParameters h wrap (mapVal :: rest) params =
      match convertEntry h mapVal with
      | .error err => .error (wrap err)
      | .ok typedVal =>
        convertParameters h wrap rest (mapPut params (mapVal.field "param").asString typedVal) :=
  rfl

/-- The loop over the parameter set fails as soon as one entry does not convert. -/
theorem convertParameters_error (h : Helpers) (wrap : GoError → GoError) :
    ∀ (entries : List Value) (params : List (String × Value)),
      (∃ mapVal ∈ entries, ∃ e, convertEntry h mapVal = .error e) →
      ∃ err, convertParameters h wrap entries params = .error err := by
  intro entries
  induction entries with
  | nil => intro _ hex; simp at hex
  | cons mapVal rest ih =>
    intro params hex
    rw [convertParameters_cons]
    cases hc : convertEntry h mapVal with
    | error e => exact ⟨wrap e, rfl⟩
    | ok typedVal =>
      dsimp only
      apply ih
      obtain ⟨bad, hmem, e, hbad⟩ := hex
      rcases List.mem_cons.mp hmem with hhead | htail
      · subst hhead
        rw [hc] at hbad
        cases hbad
      · exact ⟨bad, htail, e, hbad⟩

/-- When every entry converts, the loop over the parameter set ends with a map that
holds, for each param name of the set, the converted value of its (last) entry, and
what the map held before for every other name. -/
theorem convertParameters_ok (h : Helpers) (wrap : GoError → GoError) :
    ∀ (entries : List Value) (params : List (String × Value)),
      (∀ mapVal ∈ entries, ∃ v, convertEntry h mapVal = .ok v) →
      ∃ m, convertParameters h wrap entries params = .ok m
        ∧ ∀ param, mapGet m param =
            match (entries.filter
              (fun mapVal => decide ((mapVal.field "param").asString = param))).getLast? with
            | some mapVal => (convertEntry h mapVal).toOption
            | none => mapGet params param := by
  intro entries
  induction entries with
  | nil => intro params _; exact ⟨params, rfl, fun _ => rfl⟩
  | cons mapVal rest ih =>
    intro params hall
    obtain ⟨v, hv⟩ := hall mapVal (List.mem_cons_self _ _)
    obtain ⟨m, hm, hget⟩ := ih (mapPut params (mapVal.field "param").asString v)
      (fun e he => hall e (List.mem_cons_of_mem _ he))
    refine ⟨m, ?_, fun param => ?_⟩
    · rw [convertParameters_cons, hv]
      exact hm
    · rw [hget param]
      by_cases hname : (mapVal.field "param").asString = param
      · rw [List.filter_cons_of_pos (by simpa using hname)]
        cases hl : rest.filter
            (fun mapVal => decide ((mapVal.field "param").asString = param)) with
        | nil => simp [hname, mapGet_mapPut_same, hv, Except.toOption]
        | cons a l =>
          rw [List.getLast?_cons_cons]
          cases hlast : (a :: l).getLast? with
          | none => simp at hlast
          | some b => rfl
      · rw [List.filter_cons_of_neg (by simpa using hname)]
        cases hlast : (rest.filter
            (fun mapVal => decide ((mapVal.field "param").asString = param))).getLast? with
        | none => simp [mapGet_mapPut_other _ _ _ _ hname]
        | some b => rfl

/-- The Create request carries the map the parameter loop built. -/
theorem paasCreateRequestBody_parameters (h : Helpers) (d : ResourceData)
    (m : List (String × Value))
    (hm : convertParameters h (fun err => err) (d.Get "parameter").asList [] = .ok m) :
    ∃ requestBody, paasCreateRequestBody h d = .ok requestBody ∧ requestBody.Parameters = m := by
  unfold paasCreateRequestBody
  simp only [hm]
  exact ⟨_, rfl, rfl⟩

/-- The Update request carries the map the parameter loop built. -/
theorem paasUpdateRequestBody_parameters (h : Helpers) (d : ResourceData)
    (errorPrefix : String) (m : List (String × Value))
    (hm : convertParameters h (fun err => Errorf (errorPrefix ++ " error: " ++ err.Error))
      (d.Get "parameter").asList [] = .ok m) :
    ∃ requestBody, paasUpdateRequestBody h d errorPrefix = .ok requestBody
      ∧ requestBody.Parameters = m := by
  unfold paasUpdateRequestBody
  simp only [hm]
  exact ⟨_, rfl, rfl⟩

/-- C5. For the PaaS Create and Update handlers: when some entry of the configured
parameter set does not convert to its declared type, the handler returns a non-nil
error, makes no client call (neither `CreatePaaSService` nor `UpdatePaaSService`) and
leaves the resource data, its ID included, unchanged; when every entry converts, the
handler calls the client with a request whose `Parameters` map holds, for each param
name, the converted typed value, and only those names. -/
theorem parameter_coercion_in_create_and_update (h : Helpers) (client : Client) (s : St) :
    ((∃ mapVal ∈ (s.d.Get "parameter").asList, ∃ e, convertEntry h mapVal = .error e) →
        (∃ err, resourceGridscalePaaSServiceCreate h client s = (s, .error err))
        ∧ (∃ err, resourceGridscalePaaSServiceUpdate h client s = (s, .error err)))
    ∧ ((∀ mapVal ∈ (s.d.Get "parameter").asList, ∃ v, convertEntry h mapVal = .ok v) →
        (∃ requestBody,
          (∀ param, mapGet requestBody.Parameters param
            = convertedValue h (s.d.Get "parameter").asList param)
          ∧ resourceGridscalePaaSServiceCreate h client s =
              match client.CreatePaaSService requestBody with
              | .error err =>
                ({ s with calls := s.calls ++ [Call.CreatePaaSService requestBody] }, .error err)
              | .ok response =>
                resourceGridscalePaaSServiceRead h client
                  { d := s.d.SetId response.ObjectUUID
                    calls := s.calls ++ [Call.CreatePaaSService requestBody] })
        ∧ (∃ requestBody,
          (∀ param, mapGet requestBody.Parameters param
            = convertedValue h (s.d.Get "parameter").asList param)
          ∧ resourceGridscalePaaSServiceUpdate h client s =
              match client.UpdatePaaSService s.d.Id requestBody with
              | some err =>
                ({ s with calls := s.calls ++ [Call.UpdatePaaSService s.d.Id requestBody] },
                  .error (Errorf ("update paas (" ++ s.d.Id ++ ") resource -" ++ " error: "
                    ++ err.Error)))
              | none =>
                resourceGridscalePaaSServiceRead h client
                  { s with calls := s.calls ++ [Call.UpdatePaaSService s.d.Id requestBody] })) := by
  constructor
  · intro hbad
    constructor
    · obtain ⟨err, herr⟩ := convertParameters_error h (fun err => err) _ [] hbad
      exact ⟨err, by
        simp [resourceGridscalePaaSServiceCreate, paasCreateRequestBody, Handler.andThen, herr]⟩
    · obtain ⟨err, herr⟩ := convertParameters_error h
        (fun err => Errorf ("update paas (" ++ s.d.Id ++ ") resource -" ++ " error: "
          ++ err.Error)) _ [] hbad
      exact ⟨err, by
        simp [resourceGridscalePaaSServiceUpdate, paasUpdateRequestBody, Handler.andThen, herr]⟩
  · intro hall
    constructor
    · obtain ⟨m, hm, hget⟩ := convertParameters_ok h (fun err => err) _ [] hall
      obtain ⟨requestBody, hreq, hparams⟩ := paasCreateRequestBody_parameters h s.d m hm
      refine ⟨requestBody, fun param => ?_, ?_⟩
      · rw [hparams, hget param]
        rfl
      · simp only [resourceGridscalePaaSServiceCreate, Handler.bind_run, Handler.andThen,
          Handler.data_run, Handler.call_run, hreq]
        cases client.CreatePaaSService requestBody <;> rfl
    · obtain ⟨m, hm, hget⟩ := convertParameters_ok h
        (fun err => Errorf ("update paas (" ++ s.d.Id ++ ") resource -" ++ " error: "
          ++ err.Error)) _ [] hall
      obtain ⟨requestBody, hreq, hparams⟩ :=
        paasUpdateRequestBody_parameters h s.d _ m hm
      refine ⟨requestBody, fun param => ?_, ?_⟩
      · rw [hparams, hget param]
        rfl
      · simp only [resourceGridscalePaaSServiceUpdate, Handler.bind_run, Handler.andThen,
          Handler.data_run, Handler.call_run, hreq]
        cases client.UpdatePaaSService s.d.Id requestBody <;> rfl

/-- The parameter set of the example resource data. -/
theorem example_parameters :
    (exampleState.d.Get "parameter").asList
      = [.obj [("param", .str "flag"), ("value", .str "true"), ("type", .str "bool")]] := by
  simp [exampleState, exampleData, ResourceData.Get, mapGet, Value.asList]

/-- The parameter set of the resource data whose entry does not convert. -/
theorem unconvertible_parameters :
    (unconvertibleData.Get "parameter").asList
      = [.obj [("param", .str "flag"), ("value", .str "maybe"), ("type", .str "bool")]] := by
  simp [unconvertibleData, exampleData, ResourceData.Get, mapGet, Value.asList]

/-- A concrete run of C5: with the entry `flag = maybe` of type `bool` Create fails and
changes nothing; with `flag = true` the request carries `flag` as the boolean `true`. -/
theorem parameter_coercion_witness :
    (∃ err, resourceGridscalePaaSServiceCreate exampleHelpers exampleClient
        { d := unconvertibleData, calls := [] }
        = ({ d := unconvertibleData, calls := [] }, .error err))
    ∧ (∃ requestBody : PaaSServiceCreateRequest,
        mapGet requestBody.Parameters "flag" = some (.bool true)
        ∧ resourceGridscalePaaSServiceCreate exampleHelpers exampleClient exampleState =
            match exampleClient.CreatePaaSService requestBody with
            | .error err =>
              ({ exampleState with
                  calls := exampleState.calls ++ [Call.CreatePaaSService requestBody] },
                .error err)
            | .ok response =>
              resourceGridscalePaaSServiceRead exampleHelpers exampleClient
                { d := exampleState.d.SetId response.ObjectUUID
                  calls := exampleState.calls ++ [Call.CreatePaaSService requestBody] }) := by
  constructor
  · refine ((parameter_coercion_in_create_and_update exampleHelpers exampleClient
      { d := unconvertibleData, calls := [] }).1 ?_).1
    refine ⟨.obj [("param", .str "flag"), ("value", .str "maybe"), ("type", .str "bool")], ?_,
      GoError.errorString "type of value is not bool", ?_⟩
    · show _ ∈ (unconvertibleData.Get "parameter").asList
      rw [unconvertible_parameters]
      exact List.mem_singleton.mpr rfl
    · simp [convertEntry, exampleHelpers, Value.field, mapGet, Value.asString]
  · obtain ⟨requestBody, hparams, hrun⟩ :=
      ((parameter_coercion_in_create_and_update exampleHelpers exampleClient exampleState).2
        (by
          rw [example_parameters]
          intro mapVal hmem
          rw [List.mem_singleton.mp hmem]
          exact ⟨.bool true, by
            simp [convertEntry, exampleHelpers, Value.field, mapGet, Value.asString]⟩)).1
    refine ⟨requestBody, ?_, hrun⟩
    rw [hparams "flag", example_parameters]
    simp [convertedValue, convertEntry, exampleHelpers, Value.field, mapGet, Value.asString,
      Except.toOption]

/-! ## Contextual prefixes of error messages -/

/-- The message of `fmt.Errorf("%s<what>%v", errorPrefix, err)` begins with `errorPrefix`. -/
theorem errorf_prefixed (errorPrefix what : String) (err : GoError) :
    ∃ rest, (Errorf (errorPrefix ++ what ++ err.Error)).Error = errorPrefix ++ rest :=
  ⟨what ++ err.Error, by simp only [Errorf, GoError.Error, String.append_assoc]⟩

/-- A failed write behind a text that begins with `errorPrefix` gives an error whose
message begins with `errorPrefix`. -/
theorem setOrReturn_prefixed (errorPrefix what key : String) (value : Value) :
    Handler.Triple (fun _ => True) (setOrReturn (errorPrefix ++ what) key value)
      (fun _ _ => True) (fun e _ => ∃ rest, e.Error = errorPrefix ++ rest) :=
  Handler.Triple.setOrReturn (fun _ _ _ => True.intro)
    (fun _ err _ _ => ⟨what ++ err.Error, by simp [Errorf, GoError.Error, String.append_assoc]⟩)

theorem setPaaSCredentials_prefixed (errorPrefix : String) (creds : List Credential) :
    Handler.Triple (fun _ => True) (setPaaSCredentials errorPrefix creds)
      (fun _ _ => True) (fun e _ => ∃ rest, e.Error = errorPrefix ++ rest) := by
  unfold setPaaSCredentials
  cases creds with
  | nil => exact Handler.Triple.pure (fun _ _ => True.intro)
  | cons first rest =>
    dsimp only
    refine Handler.Triple.bind (setOrReturn_prefixed _ _ _ _) (fun _ => ?_)
    refine Handler.Triple.bind (setOrReturn_prefixed _ _ _ _) (fun _ => ?_)
    exact setOrReturn_prefixed _ _ _ _

theorem setPostgreSQLCredentials_prefixed (errorPrefix : String) (creds : List Credential) :
    Handler.Triple (fun _ => True) (setPostgreSQLCredentials errorPrefix creds)
      (fun _ _ => True) (fun e _ => ∃ rest, e.Error = errorPrefix ++ rest) := by
  unfold setPostgreSQLCredentials
  cases creds with
  | nil => exact Handler.Triple.pure (fun _ _ => True.intro)
  | cons first rest =>
    dsimp only
    refine Handler.Triple.bind (setOrReturn_prefixed _ _ _ _) (fun _ => ?_)
    exact setOrReturn_prefixed _ _ _ _

theorem setMaxCoreCount_prefixed (errorPrefix : String) :
    ∀ (limits : List ResourceLimit),
      Handler.Triple (fun _ => True) (setMaxCoreCount errorPrefix limits)
        (fun _ _ => True) (fun e _ => ∃ rest, e.Error = errorPrefix ++ rest) := by
  intro limits
  induction limits with
  | nil => exact Handler.Triple.pure (fun _ _ => True.intro)
  | cons value rest ih =>
    unfold setMaxCoreCount
    refine Handler.Triple.bind ?_ (fun _ => ih)
    by_cases hcores : value.Resource = "cores"
    · rw [if_pos hcores]
      exact setOrReturn_prefixed _ _ _ _
    · rw [if_neg hcores]
      exact Handler.Triple.pure (fun _ _ => True.intro)

theorem setSecurityZoneNetwork_prefixed (errorPrefix SecurityZoneUUID : String) :
    ∀ (networks : List Network),
      Handler.Triple (fun _ => True)
        (setSecurityZoneNetwork errorPrefix SecurityZoneUUID networks)
        (fun _ _ => True) (fun e _ => ∃ rest, e.Error = errorPrefix ++ rest) := by
  intro networks
  induction networks with
  | nil => exact Handler.Triple.pure (fun _ _ => True.intro)
  | cons network rest ih =>
    unfold setSecurityZoneNetwork
    refine Handler.Triple.bind ?_ (fun _ => ih)
    cases hz : network.Properties.Relations.PaaSSecurityZones with
    | nil => exact Handler.Triple.pure (fun _ _ => True.intro)
    | cons first others =>
      dsimp only
      by_cases heq : first.ObjectUUID = SecurityZoneUUID
      · rw [if_pos heq]
        exact setOrReturn_prefixed _ _ _ _
      · rw [if_neg heq]
        exact Handler.Triple.pure (fun _ _ => True.intro)

theorem lookForSecurityZoneNetwork_prefixed (client : Client)
    (errorPrefix SecurityZoneUUID : String) :
    Handler.Triple (fun _ => True)
      (lookForSecurityZoneNetwork client errorPrefix SecurityZoneUUID)
      (fun _ _ => True) (fun e _ => ∃ rest, e.Error = errorPrefix ++ rest) := by
  unfold lookForSecurityZoneNetwork
  by_cases hz : SecurityZoneUUID = ""
  · rw [if_pos hz]
    exact Handler.Triple.pure (fun _ _ => True.intro)
  · rw [if_neg hz]
    refine Handler.Triple.bind (Q := fun _ _ => True)
      (Handler.Triple.call (fun _ _ => True.intro)) (fun r => ?_)
    cases r with
    | error err =>
      exact Handler.Triple.fail (fun _ _ =>
        ⟨" error getting networks: " ++ err.Error, by
          simp [Errorf, GoError.Error, String.append_assoc]⟩)
    | ok networks => exact setSecurityZoneNetwork_prefixed _ _ networks

/-- An error of the parameter loop is a conversion error as the handler wraps it. -/
theorem convertParameters_error_wrapped (h : Helpers) (wrap : GoError → GoError) :
    ∀ (entries : List Value) (params : List (String × Value)) (err : GoError),
      convertParameters h wrap entries params = .error err →
      ∃ bad, err = wrap bad
        ∧ ∃ mapVal ∈ entries, convertEntry h mapVal = .error bad := by
  intro entries
  induction entries with
  | nil => intro params err hrun; cases hrun
  | cons mapVal rest ih =>
    intro params err hrun
    rw [convertParameters_cons] at hrun
    cases hc : convertEntry h mapVal with
    | error bad =>
      rw [hc] at hrun
      cases hrun
      exact ⟨bad, rfl, mapVal, List.mem_cons_self _ _, hc⟩
    | ok typedVal =>
      rw [hc] at hrun
      obtain ⟨bad, hbad, e', hmem, he'⟩ := ih _ err hrun
      exact ⟨bad, hbad, e', List.mem_cons_of_mem _ hmem, he'⟩

theorem readParameters_prefixed (h : Helpers) (errorPrefix : String) :
    ∀ (entries : List (String × Value)) (parameters : List Value) (e : GoError),
      readParameters h errorPrefix parameters entries = .error e →
      ∃ rest, e.Error = errorPrefix ++ rest := by
  intro entries
  induction entries with
  | nil => intro parameters e hrun; cases hrun
  | cons entry rest ih =>
    intro parameters e hrun
    obtain ⟨k, value⟩ := entry
    unfold readParameters at hrun
    cases ht : h.getInterfaceType value with
    | error err =>
      rw [ht] at hrun
      cases hrun
      exact ⟨" error: " ++ err.Error, by simp [Errorf, GoError.Error, String.append_assoc]⟩
    | ok paramValType =>
      rw [ht] at hrun
      exact ih _ e hrun

theorem paasReadProperties_prefixed (h : Helpers) (client : Client) (errorPrefix : String)
    (props : PaaSServiceProperties) :
    Handler.Triple (fun _ => True) (paasReadProperties h client errorPrefix props)
      (fun _ _ => True) (fun e _ => ∃ rest, e.Error = errorPrefix ++ rest) := by
  unfold paasReadProperties
  dsimp only
  refine Handler.Triple.bind (setOrReturn_prefixed _ _ _ _) (fun _ => ?_)
  refine Handler.Triple.bind (setPaaSCredentials_prefixed _ _) (fun _ => ?_)
  iterate 10 refine Handler.Triple.bind (setOrReturn_prefixed _ _ _ _) (fun _ => ?_)
  cases hrp : readParameters h errorPrefix [] props.Parameters with
  | error e =>
    exact Handler.Triple.fail (fun _ _ => readParameters_prefixed h errorPrefix _ _ e hrp)
  | ok parameters =>
    dsimp only
    iterate 3 refine Handler.Triple.bind (setOrReturn_prefixed _ _ _ _) (fun _ => ?_)
    exact lookForSecurityZoneNetwork_prefixed client errorPrefix _

theorem postgreSQLReadProperties_prefixed (client : Client) (errorPrefix : String)
    (props : PaaSServiceProperties) :
    Handler.Triple (fun _ => True) (postgreSQLReadProperties client errorPrefix props)
      (fun _ _ => True) (fun e _ => ∃ rest, e.Error = errorPrefix ++ rest) := by
  unfold postgreSQLReadProperties
  dsimp only
  refine Handler.Triple.bind (setOrReturn_prefixed _ _ _ _) (fun _ => ?_)
  refine Handler.Triple.bind (setPostgreSQLCredentials_prefixed _ _) (fun _ => ?_)
  iterate 9 refine Handler.Triple.bind (setOrReturn_prefixed _ _ _ _) (fun _ => ?_)
  refine Handler.Triple.bind (setMaxCoreCount_prefixed _ _) (fun _ => ?_)
  refine Handler.Triple.bind (setOrReturn_prefixed _ _ _ _) (fun _ => ?_)
  exact lookForSecurityZoneNetwork_prefixed client errorPrefix _

theorem errorPrefixOf_read_paas (id : String) :
    "read paas (" ++ id ++ ") resource -" = errorPrefixOf "read" "paas" id := by
  unfold errorPrefixOf
  have h : ("read" : String) ++ " " ++ "paas" ++ " (" = "read paas (" := by decide
  rw [h]

/-- Every error of the PaaS Read handler carries the read prefix with the ID the
handler was entered with. -/
theorem paas_read_error_prefixed (h : Helpers) (client : Client) (s s' : St) (e : GoError)
    (hrun : resourceGridscalePaaSServiceRead h client s = (s', .error e)) :
    HasOperationPrefix "read" "paas" s.d.Id e := by
  unfold HasOperationPrefix
  rw [← errorPrefixOf_read_paas]
  simp only [resourceGridscalePaaSServiceRead, Handler.bind_run, Handler.andThen,
    Handler.data_run, Handler.call_run] at hrun
  cases hget : client.GetPaaSService s.d.Id with
  | error err =>
    rw [hget] at hrun
    cases err with
    | RequestError code text =>
      by_cases hcode : code = 404
      · simp [hcode] at hrun
      · simp only [hcode, if_false, Handler.fail_run, Prod.mk.injEq, Except.error.injEq] at hrun
        rw [← hrun.2]
        exact errorf_prefixed _ _ _
    | errorString text =>
      simp only [Handler.fail_run, Prod.mk.injEq, Except.error.injEq] at hrun
      rw [← hrun.2]
      exact errorf_prefixed _ _ _
  | ok paas =>
    rw [hget] at hrun
    have hbody := paasReadProperties_prefixed h client ("read paas (" ++ s.d.Id ++ ") resource -")
      paas.Properties { d := s.d, calls := s.calls ++ [Call.GetPaaSService s.d.Id] } True.intro
    simp only [] at hrun
    rw [hrun] at hbody
    exact hbody

theorem postgresql_read_error_prefixed (client : Client) (s s' : St) (e : GoError)
    (hrun : resourceGridscalePostgreSQLRead client s = (s', .error e)) :
    HasOperationPrefix "read" "paas" s.d.Id e := by
  unfold HasOperationPrefix
  rw [← errorPrefixOf_read_paas]
  simp only [resourceGridscalePostgreSQLRead, Handler.bind_run, Handler.andThen,
    Handler.data_run, Handler.call_run] at hrun
  cases hget : client.GetPaaSService s.d.Id with
  | error err =>
    rw [hget] at hrun
    cases err with
    | RequestError code text =>
      by_cases hcode : code = 404
      · simp [hcode] at hrun
      · simp only [hcode, if_false, Handler.fail_run, Prod.mk.injEq, Except.error.injEq] at hrun
        rw [← hrun.2]
        exact errorf_prefixed _ _ _
    | errorString text =>
      simp only [Handler.fail_run, Prod.mk.injEq, Except.error.injEq] at hrun
      rw [← hrun.2]
      exact errorf_prefixed _ _ _
  | ok paas =>
    rw [hget] at hrun
    have hbody := postgreSQLReadProperties_prefixed client
      ("read paas (" ++ s.d.Id ++ ") resource -") paas.Properties
      { d := s.d, calls := s.calls ++ [Call.GetPaaSService s.d.Id] } True.intro
    simp only [] at hrun
    rw [hrun] at hbody
    exact hbody

theorem errorPrefixOf_update_paas (id : String) :
    "update paas (" ++ id ++ ") resource -" = errorPrefixOf "update" "paas" id := by
  unfold errorPrefixOf
  have h : ("update" : String) ++ " " ++ "paas" ++ " (" = "update paas (" := by decide
  rw [h]

theorem errorPrefixOf_delete_paas (id : String) :
    "delete paas (" ++ id ++ ") resource -" = errorPrefixOf "delete" "paas" id := by
  unfold errorPrefixOf
  have h : ("delete" : String) ++ " " ++ "paas" ++ " (" = "delete paas (" := by decide
  rw [h]

theorem errorPrefixOf_update_k8s (id : String) :
    "update k8s (" ++ id ++ ") resource -" = errorPrefixOf "update" "k8s" id := by
  unfold errorPrefixOf
  have h : ("update" : String) ++ " " ++ "k8s" ++ " (" = "update k8s (" := by decide
  rw [h]

theorem errorPrefixOf_create_k8s (id : String) :
    "create k8s (" ++ id ++ ") resource -" = errorPrefixOf "create" "k8s" id := by
  unfold errorPrefixOf
  have h : ("create" : String) ++ " " ++ "k8s" ++ " (" = "create k8s (" := by decide
  rw [h]

/-- Every error of the PaaS Update handler carries the update prefix, or the read
prefix when it comes from the trailing Read. -/
theorem paas_update_error_prefixed (h : Helpers) (client : Client) (s s' : St) (e : GoError)
    (hrun : resourceGridscalePaaSServiceUpdate h client s = (s', .error e)) :
    HasOperationPrefix "update" "paas" s.d.Id e ∨ HasOperationPrefix "read" "paas" s.d.Id e := by
  cases hreq : paasUpdateRequestBody h s.d ("update paas (" ++ s.d.Id ++ ") resource -") with
  | error err =>
    left
    simp only [resourceGridscalePaaSServiceUpdate, Handler.bind_run, Handler.andThen,
      Handler.data_run, hreq, Handler.fail_run, Prod.mk.injEq, Except.error.injEq] at hrun
    unfold paasUpdateRequestBody at hreq
    dsimp only at hreq
    cases hconv : convertParameters h
        (fun err => Errorf ("update paas (" ++ s.d.Id ++ ") resource -" ++ " error: "
          ++ err.Error)) (s.d.Get "parameter").asList [] with
    | ok m => rw [hconv] at hreq; cases hreq
    | error err' =>
      rw [hconv] at hreq
      obtain ⟨bad, hbad, _⟩ := convertParameters_error_wrapped h _ _ _ _ hconv
      cases hreq
      unfold HasOperationPrefix
      rw [← errorPrefixOf_update_paas, ← hrun.2, hbad]
      exact errorf_prefixed _ _ _
  | ok requestBody =>
    cases hupd : client.UpdatePaaSService s.d.Id requestBody with
    | some err =>
      left
      simp only [resourceGridscalePaaSServiceUpdate, Handler.bind_run, Handler.andThen,
        Handler.data_run, Handler.call_run, hreq, hupd, Handler.fail_run, Prod.mk.injEq,
        Except.error.injEq] at hrun
      unfold HasOperationPrefix
      rw [← errorPrefixOf_update_paas, ← hrun.2]
      exact errorf_prefixed _ _ _
    | none =>
      right
      simp only [resourceGridscalePaaSServiceUpdate, Handler.bind_run, Handler.andThen,
        Handler.data_run, Handler.call_run, hreq, hupd] at hrun
      exact paas_read_error_prefixed h client
        { d := s.d, calls := s.calls ++ [Call.UpdatePaaSService s.d.Id requestBody] } s' e hrun

/-- Every error of the two Delete handlers carries the delete prefix. -/
theorem delete_error_prefixed (client : Client) (s s' : St) (e : GoError)
    (hrun : resourceGridscalePaaSServiceDelete client s = (s', .error e)
      ∨ resourceGridscalePostgreSQLDelete client s = (s', .error e)) :
    HasOperationPrefix "delete" "paas" s.d.Id e := by
  have hsame : resourceGridscalePostgreSQLDelete client s
      = resourceGridscalePaaSServiceDelete client s := rfl
  rw [hsame, or_self] at hrun
  simp only [resourceGridscalePaaSServiceDelete, Handler.bind_run, Handler.andThen,
    Handler.data_run, Handler.call_run] at hrun
  cases hsup : SuppressHTTPErrorCodes (client.DeletePaaSService s.d.Id) [StatusNotFound] with
  | none => rw [hsup] at hrun; simp at hrun
  | some err =>
    rw [hsup] at hrun
    simp only [Handler.fail_run, Prod.mk.injEq, Except.error.injEq] at hrun
    unfold HasOperationPrefix
    rw [← errorPrefixOf_delete_paas, ← hrun.2]
    exact errorf_prefixed _ _ _

theorem Handler.Triple.bind_data {β : Type} {d : ResourceData} {f : ResourceData → Handler β}
    {R : β → St → Prop} {E : GoError → St → Prop}
    (hf : Handler.Triple (fun s => s.d = d) (f d) R E) :
    Handler.Triple (fun s => s.d = d) (Handler.data >>= f) R E := by
  intro s hs
  subst hs
  exact hf s rfl

/-- The PostgreSQL Read handler, entered with the ID `id`, fails only with the read
prefix for `id`. -/
theorem postgresql_read_triple (client : Client) (id : String) :
    Handler.Triple (fun s => s.d.Id = id) (resourceGridscalePostgreSQLRead client)
      (fun _ _ => True) (fun e _ => HasOperationPrefix "read" "paas" id e) := by
  intro s hs
  rcases hrun : resourceGridscalePostgreSQLRead client s with ⟨s', r⟩
  cases r with
  | ok u => exact True.intro
  | error e => exact hs ▸ postgresql_read_error_prefixed client s s' e hrun

theorem postgreSQLUpdateTemplate_prefixed (client : Client) (d : ResourceData)
    (errorPrefix : String) (requestBody : PaaSServiceUpdateRequest) :
    Handler.Triple (fun s => s.d = d)
      (postgreSQLUpdateTemplate client d errorPrefix requestBody)
      (fun _ s => s.d = d) (fun e _ => ∃ rest, e.Error = errorPrefix ++ rest) := by
  unfold postgreSQLUpdateTemplate
  cases hchange : (d.HasChange "release" || d.HasChange "performance_class") with
  | false => exact Handler.Triple.pure (fun _ hs => hs)
  | true =>
    simp only [if_true]
    refine Handler.Triple.bind (Q := fun _ s => s.d = d)
      (Handler.Triple.call (fun _ hs => hs)) (fun r => ?_)
    cases r with
    | error err => exact Handler.Triple.fail (fun _ _ => errorf_prefixed _ _ _)
    | ok templateUUID => exact Handler.Triple.pure (fun _ hs => hs)

/-- Every error of the PostgreSQL Update handler carries the update prefix, or the read
prefix when it comes from the trailing Read. -/
theorem postgresql_update_error_prefixed (h : Helpers) (client : Client) (s s' : St)
    (e : GoError)
    (hrun : resourceGridscalePostgreSQLUpdate h client s = (s', .error e)) :
    HasOperationPrefix "update" "k8s" s.d.Id e ∨ HasOperationPrefix "read" "paas" s.d.Id e := by
  have htriple : Handler.Triple (fun s₀ => s₀.d = s.d) (resourceGridscalePostgreSQLUpdate h client)
      (fun _ _ => True)
      (fun e _ => HasOperationPrefix "update" "k8s" s.d.Id e
        ∨ HasOperationPrefix "read" "paas" s.d.Id e) := by
    unfold resourceGridscalePostgreSQLUpdate
    refine Handler.Triple.bind_data ?_
    dsimp only
    refine Handler.Triple.bind (Q := fun _ s₀ => s₀.d = s.d)
      (Handler.Triple.weaken (postgreSQLUpdateTemplate_prefixed client s.d _ _)
        (fun _ hs => hs) (fun _ _ hs => hs)
        (fun e _ he => Or.inl (by
          unfold HasOperationPrefix
          rw [← errorPrefixOf_update_k8s]
          exact he)))
      (fun requestBody => ?_)
    refine Handler.Triple.bind (Q := fun _ s₀ => s₀.d = s.d)
      (Handler.Triple.call (fun _ hs => hs)) (fun err => ?_)
    cases err with
    | some err =>
      exact Handler.Triple.fail (fun _ _ => Or.inl (by
        unfold HasOperationPrefix
        rw [← errorPrefixOf_update_k8s]
        exact errorf_prefixed _ _ _))
    | none =>
      exact Handler.Triple.weaken (postgresql_read_triple client s.d.Id)
        (fun _ hs => by rw [hs]) (fun _ _ _ => True.intro) (fun _ _ he => Or.inr he)
  have hfinal := htriple s rfl
  rw [hrun] at hfinal
  exact hfinal

/-! ## Errors of Read, Update and Delete -/

/-- C7. Every non-nil error returned by the Read, Update and Delete handlers of the PaaS
and PostgreSQL resources is a message that begins with a prefix of the form
`<operation> <kind> (<id>) resource -`, where the operation is read, update or delete
and `<id>` is the resource ID the handler was entered with; an Update that fails inside
its trailing Read carries the read prefix. -/
theorem read_update_delete_errors_prefixed (h : Helpers) (client : Client) (s s' : St)
    (e : GoError) :
    (resourceGridscalePaaSServiceRead h client s = (s', .error e) →
        HasOperationPrefix "read" "paas" s.d.Id e)
    ∧ (resourceGridscalePaaSServiceUpdate h client s = (s', .error e) →
        HasOperationPrefix "update" "paas" s.d.Id e ∨ HasOperationPrefix "read" "paas" s.d.Id e)
    ∧ (resourceGridscalePaaSServiceDelete client s = (s', .error e) →
        HasOperationPrefix "delete" "paas" s.d.Id e)
    ∧ (resourceGridscalePostgreSQLRead client s = (s', .error e) →
        HasOperationPrefix "read" "paas" s.d.Id e)
    ∧ (resourceGridscalePostgreSQLUpdate h client s = (s', .error e) →
        HasOperationPrefix "update" "k8s" s.d.Id e ∨ HasOperationPrefix "read" "paas" s.d.Id e)
    ∧ (resourceGridscalePostgreSQLDelete client s = (s', .error e) →
        HasOperationPrefix "delete" "paas" s.d.Id e) :=
  ⟨paas_read_error_prefixed h client s s' e,
    paas_update_error_prefixed h client s s' e,
    fun hrun => delete_error_prefixed client s s' e (Or.inl hrun),
    postgresql_read_error_prefixed client s s' e,
    postgresql_update_error_prefixed h client s s' e,
    fun hrun => delete_error_prefixed client s s' e (Or.inr hrun)⟩

/-- On the example inputs a delete the API answers with status 500 fails. -/
theorem example_delete_fails :
    resourceGridscalePaaSServiceDelete failingClient exampleState
      = ({ exampleState with calls := [Call.DeletePaaSService "svc-1"] },
          .error (Errorf ("delete paas (svc-1) resource - error: "
            ++ "Status code: 500. Error: internal server error"))) := by
  simp [resourceGridscalePaaSServiceDelete, Handler.andThen, failingClient, exampleState,
    exampleData, SuppressHTTPErrorCodes, StatusNotFound, internalError, ResourceData.Id,
    GoError.Error]

/-- A concrete run of C7: a delete the API answers with status 500 fails with a message
that begins with `delete paas (svc-1) resource -`. -/
theorem read_update_delete_errors_prefixed_witness :
    HasOperationPrefix "delete" "paas" "svc-1"
      (Errorf ("delete paas (svc-1) resource - error: "
        ++ "Status code: 500. Error: internal server error")) :=
  (read_update_delete_errors_prefixed exampleHelpers failingClient exampleState _ _).2.2.1
    example_delete_fails

/-! ## Errors of Create -/

/-- On the example inputs the PaaS Create handler returns the client's error as it is. -/
theorem example_paas_create_fails :
    (resourceGridscalePaaSServiceCreate exampleHelpers failingClient exampleState).2
        = .error internalError := by
  simp [resourceGridscalePaaSServiceCreate, paasCreateRequestBody, Handler.andThen,
    failingClient, exampleState, exampleData, ResourceData.Id, ResourceData.Get,
    ResourceData.GetOk, mapGet, Value.asList, convertParameters, exampleHelpers, Value.field,
    Value.asString]

/-- On the example inputs the PostgreSQL Create handler returns the client's error as it
is. -/
theorem example_postgresql_create_fails :
    (resourceGridscalePostgreSQLCreate exampleHelpers failingClient exampleState).2
        = .error internalError := by
  simp [resourceGridscalePostgreSQLCreate, postgreSQLCreateRequestBody, Handler.andThen,
    failingClient, exampleState, exampleData, ResourceData.Id, ResourceData.Get,
    ResourceData.GetOk, mapGet, Value.asList, getPostgresTemplateUUID, exampleClient,
    exampleTemplates, templateLoop, postgresTemplateFlavourName, exampleHelpers, Value.field,
    Value.asString]

/-- On the entry `flag = maybe` of type `bool` the PaaS Create handler returns the
conversion error as it is. -/
theorem example_paas_create_coercion_fails :
    (resourceGridscalePaaSServiceCreate exampleHelpers exampleClient
        { d := unconvertibleData, calls := [] }).2
      = .error (GoError.errorString "type of value is not bool") := by
  simp [resourceGridscalePaaSServiceCreate, paasCreateRequestBody, Handler.andThen,
    unconvertibleData, exampleData, ResourceData.Get, ResourceData.GetOk, mapGet,
    Value.asList, convertParameters, exampleHelpers, Value.field, Value.asString]

/-- On the same entry the PaaS Update handler returns the conversion error behind its
prefix. -/
theorem example_paas_update_coercion_fails :
    (resourceGridscalePaaSServiceUpdate exampleHelpers exampleClient
        { d := unconvertibleData, calls := [] }).2
      = .error (Errorf "update paas (svc-1) resource - error: type of value is not bool") := by
  simp [resourceGridscalePaaSServiceUpdate, paasUpdateRequestBody, Handler.andThen,
    unconvertibleData, exampleData, ResourceData.Get, ResourceData.Id, mapGet,
    Value.asList, convertParameters, exampleHelpers, Value.field, Value.asString,
    GoError.Error, Errorf]

/-- C6, evaluated on the code: when the client's `CreatePaaSService` call fails with
status 500, both Create handlers return that request error itself, and when a parameter
does not convert the PaaS Create handler returns the conversion error itself; neither
message begins with a prefix of the form `create <kind> (<id>) resource -`, whatever the
kind and the ID. On the same inputs the sibling PaaS Update handler returns both errors
behind its prefix `update paas (svc-1) resource -`. -/
theorem create_returns_client_error_unwrapped :
    (resourceGridscalePaaSServiceCreate exampleHelpers failingClient exampleState).2
        = .error internalError
    ∧ (resourceGridscalePostgreSQLCreate exampleHelpers failingClient exampleState).2
        = .error internalError
    ∧ (¬ ∃ kind id, HasOperationPrefix "create" kind id internalError)
    ∧ (resourceGridscalePaaSServiceCreate exampleHelpers exampleClient
        { d := unconvertibleData, calls := [] }).2
        = .error (GoError.errorString "type of value is not bool")
    ∧ (¬ ∃ kind id, HasOperationPrefix "create" kind id
        (GoError.errorString "type of value is not bool"))
    ∧ (resourceGridscalePaaSServiceUpdate exampleHelpers exampleClient
        { d := unconvertibleData, calls := [] }).2
        = .error (Errorf "update paas (svc-1) resource - error: type of value is not bool")
    ∧ (resourceGridscalePaaSServiceUpdate exampleHelpers failingClient exampleState).2
        = .error (Errorf ("update paas (svc-1) resource - error: "
            ++ "Status code: 500. Error: internal server error")) := by
  refine ⟨example_paas_create_fails, example_postgresql_create_fails, ?_,
    example_paas_create_coercion_fails, ?_, example_paas_update_coercion_fails, ?_⟩
  · rintro ⟨kind, id, rest, hmsg⟩
    have hdata := congrArg String.data hmsg
    simp [internalError, GoError.Error, errorPrefixOf, String.data_append] at hdata
  · rintro ⟨kind, id, rest, hmsg⟩
    have hdata := congrArg String.data hmsg
    simp [GoError.Error, errorPrefixOf, String.data_append] at hdata
  · simp [resourceGridscalePaaSServiceUpdate, paasUpdateRequestBody, Handler.andThen,
      failingClient, exampleState, exampleData, ResourceData.Get, ResourceData.Id, mapGet,
      Value.asList, convertParameters, exampleHelpers, Value.field, Value.asString,
      GoError.Error, Errorf, internalError, ResourceData.HasChange]

/-- Where an error of a Create handler comes from: a parameter that does not convert
(PaaS) or the client's `CreatePaaSService` call, both handed back as they are; the
PostgreSQL template lookup, the one error the handler wraps behind the create prefix it
builds from the ID at entry; or the trailing Read, with the read prefix for the ID of the
created service. -/
theorem create_errors_classified (h : Helpers) (client : Client) (s s' : St) (e : GoError) :
    (resourceGridscalePaaSServiceCreate h client s = (s', .error e) →
        (∃ mapVal ∈ (s.d.Get "parameter").asList, convertEntry h mapVal = .error e)
        ∨ (∃ requestBody, client.CreatePaaSService requestBody = .error e)
        ∨ (∃ requestBody response, client.CreatePaaSService requestBody = .ok response
            ∧ HasOperationPrefix "read" "paas" response.ObjectUUID e))
    ∧ (resourceGridscalePostgreSQLCreate h client s = (s', .error e) →
        (∃ err kind, getPostgresTemplateUUID client (s.d.Get "release").asString
              (s.d.Get "performance_class").asString = .error err
            ∧ e = Errorf (errorPrefixOf "create" kind s.d.Id ++ " error: " ++ err.Error))
        ∨ (∃ requestBody, client.CreatePaaSService requestBody = .error e)
        ∨ (∃ requestBody response, client.CreatePaaSService requestBody = .ok response
            ∧ HasOperationPrefix "read" "paas" response.ObjectUUID e)) := by
  constructor
  · intro hrun
    cases hreq : paasCreateRequestBody h s.d with
    | error err =>
      left
      simp only [resourceGridscalePaaSServiceCreate, Handler.bind_run, Handler.andThen,
        Handler.data_run, hreq, Handler.fail_run, Prod.mk.injEq, Except.error.injEq] at hrun
      unfold paasCreateRequestBody at hreq
      dsimp only at hreq
      cases hconv : convertParameters h (fun err => err) (s.d.Get "parameter").asList [] with
      | ok m => rw [hconv] at hreq; cases hreq
      | error err' =>
        rw [hconv] at hreq
        obtain ⟨bad, hbad, mapVal, hmem, hentry⟩ :=
          convertParameters_error_wrapped h _ _ _ _ hconv
        cases hreq
        rw [← hrun.2, hbad]
        exact ⟨mapVal, hmem, hentry⟩
    | ok requestBody =>
      right
      cases hcreate : client.CreatePaaSService requestBody with
      | error err =>
        left
        simp only [resourceGridscalePaaSServiceCreate, Handler.bind_run, Handler.andThen,
          Handler.data_run, Handler.call_run, hreq, hcreate, Handler.fail_run, Prod.mk.injEq,
          Except.error.injEq] at hrun
        exact ⟨requestBody, by rw [hcreate, hrun.2]⟩
      | ok response =>
        right
        simp only [resourceGridscalePaaSServiceCreate, Handler.bind_run, Handler.andThen,
          Handler.data_run, Handler.call_run, hreq, hcreate, Handler.SetId_run] at hrun
        exact ⟨requestBody, response, hcreate,
          paas_read_error_prefixed h client
            { d := s.d.SetId response.ObjectUUID
              calls := s.calls ++ [Call.CreatePaaSService requestBody] } s' e hrun⟩
  · intro hrun
    cases htpl : getPostgresTemplateUUID client (s.d.Get "release").asString
        (s.d.Get "performance_class").asString with
    | error err =>
      left
      simp only [resourceGridscalePostgreSQLCreate, Handler.bind_run, Handler.andThen,
        Handler.data_run, Handler.call_run, htpl, Handler.fail_run, Prod.mk.injEq,
        Except.error.injEq] at hrun
      exact ⟨err, "k8s", rfl, by rw [← hrun.2, errorPrefixOf_create_k8s]⟩
    | ok templateUUID =>
      right
      cases hcreate : client.CreatePaaSService
          (postgreSQLCreateRequestBody h s.d templateUUID) with
      | error err =>
        left
        simp only [resourceGridscalePostgreSQLCreate, Handler.bind_run, Handler.andThen,
          Handler.data_run, Handler.call_run, htpl, hcreate, Handler.fail_run, Prod.mk.injEq,
          Except.error.injEq] at hrun
        exact ⟨_, by rw [hcreate, hrun.2]⟩
      | ok response =>
        right
        simp only [resourceGridscalePostgreSQLCreate, Handler.bind_run, Handler.andThen,
          Handler.data_run, Handler.call_run, htpl, hcreate, Handler.SetId_run] at hrun
        exact ⟨_, response, hcreate,
          postgresql_read_error_prefixed client
            { d := s.d.SetId response.ObjectUUID
              calls := s.calls ++ [Call.GetPaaSTemplateList] ++
                [Call.CreatePaaSService (postgreSQLCreateRequestBody h s.d templateUUID)] }
            s' e hrun⟩

/-- A concrete run of the PostgreSQL Create handler: without a `release` in the
configuration the template lookup fails, and the error Create returns is that error
behind the prefix `create k8s (svc-1) resource -`. -/
theorem create_errors_classified_witness :
    ∃ err kind, getPostgresTemplateUUID exampleClient (unconvertibleData.Get "release").asString
          (unconvertibleData.Get "performance_class").asString = .error err
        ∧ (resourceGridscalePostgreSQLCreate exampleHelpers exampleClient
            { d := unconvertibleData, calls := [] }).2
          = .error (Errorf (errorPrefixOf "create" kind "svc-1" ++ " error: " ++ err.Error)) := by
  have hrun : (resourceGridscalePostgreSQLCreate exampleHelpers exampleClient
      { d := unconvertibleData, calls := [] }).2
      = .error (Errorf ("create k8s (svc-1) resource - error: "
          ++ " is not a valid PostgreSQL release. Valid releases are: 13\n")) := by
    simp [resourceGridscalePostgreSQLCreate, Handler.andThen, unconvertibleData, exampleData,
      ResourceData.Id, ResourceData.Get, mapGet, Value.asString, getPostgresTemplateUUID,
      exampleClient, exampleTemplates, templateLoop, postgresTemplateFlavourName,
      zeroPaaSTemplate, GoError.Error, Errorf, String.intercalate, String.intercalate.go]
  rcases (create_errors_classified exampleHelpers exampleClient
      { d := unconvertibleData, calls := [] } _ _).2 (run_eq_of_snd hrun) with
    ⟨err, kind, hlookup, hwrapped⟩ | ⟨requestBody, hcreate⟩ | ⟨requestBody, response, _, hread⟩
  · exact ⟨err, kind, hlookup, by rw [hrun, hwrapped]; rfl⟩
  · simp [exampleClient] at hcreate
  · obtain ⟨rest, hmsg⟩ := hread
    have hdata := congrArg String.data hmsg
    simp [Errorf, GoError.Error, errorPrefixOf, String.data_append] at hdata

/-! ## The `storage` attribute of the server data source -/

/-- A write of another attribute keeps the value of attribute `k'`, whether it succeeds
or fails. -/
theorem setOrReturn_frame (text k k' : String) (v w : Value) (hne : k ≠ k') :
    Handler.Triple (fun s => s.d.Get k' = w) (setOrReturn text k v)
      (fun _ s => s.d.Get k' = w) (fun _ s => s.d.Get k' = w) :=
  Handler.Triple.setOrReturn
    (fun _ hs _ => by rw [Get_put_other _ _ _ _ hne]; exact hs)
    (fun _ _ hs _ => hs)

theorem setIsoImages_frame (k' : String) (w : Value) (hne : "isoimage" ≠ k') :
    ∀ (images : List ServerIsoImageRelationProperties),
      Handler.Triple (fun s => s.d.Get k' = w) (setIsoImages images)
        (fun _ s => s.d.Get k' = w) (fun _ s => s.d.Get k' = w) := by
  intro images
  induction images with
  | nil => exact Handler.Triple.pure (fun _ hs => hs)
  | cons isoimage rest ih =>
    unfold setIsoImages
    exact Handler.Triple.bind (setOrReturn_frame _ _ _ _ _ hne) (fun _ => ih)

/-- The server data source's Read handler never writes `storage`: whatever the client
answers, the attribute has after the run the value it had before. -/
theorem server_read_keeps_storage (h : Helpers) (client : Client) (s : St) :
    (dataSourceGridscaleServerRead h client s).1.d.Get "storage" = s.d.Get "storage" := by
  have htriple : Handler.Triple (fun s₀ => s₀.d.Get "storage" = s.d.Get "storage")
      (dataSourceGridscaleServerRead h client)
      (fun _ s₁ => s₁.d.Get "storage" = s.d.Get "storage")
      (fun _ s₁ => s₁.d.Get "storage" = s.d.Get "storage") := by
    unfold dataSourceGridscaleServerRead
    refine Handler.Triple.bind (Q := fun _ s₁ => s₁.d.Get "storage" = s.d.Get "storage")
      (Handler.Triple.data (fun _ hs => hs)) (fun d => ?_)
    dsimp only
    refine Handler.Triple.bind (Q := fun _ s₁ => s₁.d.Get "storage" = s.d.Get "storage")
      (Handler.Triple.call (fun _ hs => hs)) (fun r => ?_)
    cases r with
    | error err => exact Handler.Triple.fail (fun _ hs => hs)
    | ok server =>
      dsimp only
      unfold serverReadProperties
      dsimp only
      refine Handler.Triple.bind (Q := fun _ s₁ => s₁.d.Get "storage" = s.d.Get "storage")
        (Handler.Triple.SetId (fun _ hs => hs)) (fun _ => ?_)
      iterate 20
        refine Handler.Triple.bind (setOrReturn_frame _ _ "storage" _ _ (by decide))
          (fun _ => ?_)
      refine Handler.Triple.bind (setIsoImages_frame "storage" _ (by decide) _) (fun _ => ?_)
      exact setOrReturn_frame _ _ "storage" _ _ (by decide)
  have hfinal := htriple s rfl
  rcases hrun : dataSourceGridscaleServerRead h client s with ⟨s₁, r⟩
  rw [hrun] at hfinal
  cases r <;> exact hfinal

/-- On the example inputs the server data source's Read handler succeeds. -/
theorem example_server_read_succeeds :
    (dataSourceGridscaleServerRead exampleHelpers exampleClient serverDataSourceState).2
      = .ok () := by
  simp [dataSourceGridscaleServerRead, serverReadProperties, setOrReturn_run, Handler.andThen,
    exampleClient, serverDataSourceState, exampleServer, acceptAll, setIsoImages,
    ResourceData.SetId]

/-- C8, evaluated on the code: for a server with one attached storage the Read handler
of the data source succeeds, and `storage` is afterwards still unset (the zero value),
not the one-entry list of the server's storages. -/
theorem server_read_leaves_storage_unset :
    (dataSourceGridscaleServerRead exampleHelpers exampleClient serverDataSourceState).2
      = .ok ()
    ∧ storagesOf exampleServer.Properties.Relations.Storages ≠ []
    ∧ (dataSourceGridscaleServerRead exampleHelpers exampleClient
        serverDataSourceState).1.d.Get "storage" = Value.null := by
  refine ⟨example_server_read_succeeds, by simp [storagesOf, exampleServer], ?_⟩
  rw [server_read_keeps_storage]
  rfl

/-! ## Validation of a PostgreSQL release -/

theorem releasePresent_iff (releaseList : List String) (release : String) :
    releasePresent releaseList release = true ↔ release ∈ releaseList := by
  induction releaseList with
  | nil => simp [releasePresent]
  | cons first rest ih =>
    unfold releasePresent
    by_cases hfirst : first = release
    · simp [hfirst]
    · rw [if_neg hfirst, ih]
      simp [Ne.symm hfirst]

/-- The loop of the release validation: from a state in which the flag says whether the
release is in the list, it ends with the flag set exactly when the release was in the
list or is the release of a postgres template of the loop. -/
theorem releaseLoop_valid (newReleaseVal : String) :
    ∀ (templates : List PaaSTemplate) (isReleaseValid : Bool) (releaseList : List String),
      (isReleaseValid = true ↔ newReleaseVal ∈ releaseList) →
      ((releaseLoop newReleaseVal templates (isReleaseValid, releaseList)).1 = true ↔
        (newReleaseVal ∈ releaseList
          ∨ ∃ template ∈ templates,
              template.Properties.Flavour = postgresTemplateFlavourName
              ∧ template.Properties.Release = newReleaseVal)) := by
  intro templates
  induction templates with
  | nil =>
    intro isReleaseValid releaseList hinv
    simp [releaseLoop, hinv]
  | cons template rest ih =>
    intro isReleaseValid releaseList hinv
    unfold releaseLoop
    by_cases hflavour : template.Properties.Flavour = postgresTemplateFlavourName
    · rw [if_pos hflavour]
      by_cases hpresent : releasePresent releaseList template.Properties.Release = true
      · rw [if_pos hpresent, ih isReleaseValid releaseList hinv]
        have hmem := (releasePresent_iff _ _).mp hpresent
        constructor
        · rintro (hin | ⟨t, ht, hf, hr⟩)
          · exact Or.inl hin
          · exact Or.inr ⟨t, List.mem_cons_of_mem _ ht, hf, hr⟩
        · rintro (hin | ⟨t, ht, hf, hr⟩)
          · exact Or.inl hin
          · rcases List.mem_cons.mp ht with hhead | htail
            · subst hhead
              exact Or.inl (hr ▸ hmem)
            · exact Or.inr ⟨t, htail, hf, hr⟩
      · rw [if_neg hpresent]
        dsimp only
        by_cases hrelease : template.Properties.Release = newReleaseVal
        · rw [if_pos hrelease, ih true _ (by simp [hrelease])]
          constructor
          · intro _
            exact Or.inr ⟨template, List.mem_cons_self _ _, hflavour, hrelease⟩
          · intro _
            exact Or.inl (by simp [hrelease])
        · rw [if_neg hrelease, ih isReleaseValid _ (by
            rw [hinv]
            simp [Ne.symm hrelease])]
          constructor
          · rintro (hin | ⟨t, ht, hf, hr⟩)
            · rcases List.mem_append.mp hin with hold | hnew
              · exact Or.inl hold
              · exact absurd (List.mem_singleton.mp hnew).symm hrelease
            · exact Or.inr ⟨t, List.mem_cons_of_mem _ ht, hf, hr⟩
          · rintro (hin | ⟨t, ht, hf, hr⟩)
            · exact Or.inl (List.mem_append_left _ hin)
            · rcases List.mem_cons.mp ht with hhead | htail
              · subst hhead
                exact absurd hr hrelease
              · exact Or.inr ⟨t, htail, hf, hr⟩
    · rw [if_neg hflavour, ih isReleaseValid releaseList hinv]
      constructor
      · rintro (hin | ⟨t, ht, hf, hr⟩)
        · exact Or.inl hin
        · exact Or.inr ⟨t, List.mem_cons_of_mem _ ht, hf, hr⟩
      · rintro (hin | ⟨t, ht, hf, hr⟩)
        · exact Or.inl hin
        · rcases List.mem_cons.mp ht with hhead | htail
          · subst hhead
            exact absurd hf hflavour
          · exact Or.inr ⟨t, htail, hf, hr⟩

/-- C9. The validation of a change of `release` accepts a new value exactly when the
template list has a template of flavour `postgres` with that release: for every template
list and every string `r` it returns no error iff such a template exists, duplicates of
a release in the list notwithstanding; when fetching the template list fails it returns
that error. -/
theorem release_validation_accepts_postgres_releases (client : Client) (r : String) :
    (∀ templates, client.GetPaaSTemplateList = .ok templates →
        (validateReleaseChange client (.str r) = none ↔
          ∃ template ∈ templates,
            template.Properties.Flavour = "postgres" ∧ template.Properties.Release = r))
    ∧ (∀ err, client.GetPaaSTemplateList = .error err →
        validateReleaseChange client (.str r) = some err) := by
  constructor
  · intro templates hlist
    have hloop := releaseLoop_valid r templates false [] (by simp)
    simp only [List.not_mem_nil, false_or] at hloop
    unfold validateReleaseChange
    simp only [hlist, Value.asString]
    cases hvalid : (releaseLoop r templates (false, [])).1 with
    | true =>
      rw [hvalid] at hloop
      simpa [postgresTemplateFlavourName] using hloop
    | false =>
      rw [hvalid] at hloop
      simpa [postgresTemplateFlavourName] using hloop
  · intro err hlist
    simp [validateReleaseChange, hlist]

/-- A concrete run of C9: with a postgres template of release `13` in the list, `13` is
accepted and `14` is refused. -/
theorem release_validation_witness :
    validateReleaseChange exampleClient (.str "13") = none
    ∧ validateReleaseChange exampleClient (.str "14") ≠ none := by
  have h13 := (release_validation_accepts_postgres_releases exampleClient "13").1
    exampleTemplates rfl
  have h14 := (release_validation_accepts_postgres_releases exampleClient "14").1
    exampleTemplates rfl
  constructor
  · exact h13.mpr ⟨_, List.mem_cons_of_mem _ (List.mem_cons_self _ _), rfl, rfl⟩
  · intro hnone
    obtain ⟨template, hmem, _, hrelease⟩ := h14.mp hnone
    simp only [exampleTemplates, List.mem_cons, List.mem_singleton, List.not_mem_nil,
      or_false] at hmem
    rcases hmem with rfl | rfl <;> simp at hrelease

/-! ## The UUID of the postgres service template -/

/-- The loop of `getPostgresTemplateUUID`: it ends with the flag set when it was set or
some template of the loop is a postgres template of the release and class, and with the
last such template of the loop, or the template it started with when there is none. -/
theorem templateLoop_result (release performanceClass : String) :
    ∀ (templates : List PaaSTemplate) (state : TemplateSearch),
      ((templateLoop release performanceClass templates state).isReleaseValid
          = (state.isReleaseValid
              || (templates.filter (isPostgresTemplate release performanceClass)).length != 0))
      ∧ (templateLoop release performanceClass templates state).uTemplate
          = ((templates.filter (isPostgresTemplate release performanceClass)).getLast?).getD
              state.uTemplate := by
  intro templates
  induction templates with
  | nil => intro state; simp [templateLoop]
  | cons template rest ih =>
    intro state
    unfold templateLoop
    by_cases hflavour : template.Properties.Flavour = postgresTemplateFlavourName
    · rw [if_pos hflavour]
      dsimp only
      by_cases hmatch : template.Properties.Release = release
          ∧ template.Properties.PerformanceClass = performanceClass
      · rw [if_pos hmatch]
        have hpost : isPostgresTemplate release performanceClass template = true := by
          simp [isPostgresTemplate, hflavour, hmatch.1, hmatch.2, postgresTemplateFlavourName]
        rw [List.filter_cons_of_pos hpost]
        obtain ⟨hvalid, htemplate⟩ := ih
          { isReleaseValid := true
            releases := state.releases ++ [template.Properties.Release]
            uTemplate := template }
        refine ⟨by simp [hvalid], ?_⟩
        rw [htemplate]
        cases hl : rest.filter (isPostgresTemplate release performanceClass) with
        | nil => simp
        | cons a l =>
          rw [List.getLast?_cons_cons]
          cases hlast : (a :: l).getLast? with
          | none => simp at hlast
          | some b => simp
      · rw [if_neg hmatch]
        have hpost : ¬ isPostgresTemplate release performanceClass template = true := by
          simp only [isPostgresTemplate, decide_eq_true_eq]
          exact fun hall => hmatch hall.2
        rw [List.filter_cons_of_neg hpost]
        exact ih _
    · rw [if_neg hflavour]
      have hpost : ¬ isPostgresTemplate release performanceClass template = true := by
        simp only [isPostgresTemplate, decide_eq_true_eq]
        exact fun hall => hflavour hall.1
      rw [List.filter_cons_of_neg hpost]
      exact ih _

/-- C10. For every template list, release and performance class,
`getPostgresTemplateUUID` succeeds iff some template has flavour `postgres`, that release
and that performance class, and on success it returns the `ObjectUUID` of such a
template, the last one in list order. -/
theorem getPostgresTemplateUUID_spec (client : Client) (templates : List PaaSTemplate)
    (release performanceClass : String)
    (hlist : client.GetPaaSTemplateList = .ok templates) :
    ((∃ uuid, getPostgresTemplateUUID client release performanceClass = .ok uuid) ↔
        ∃ template ∈ templates, template.Properties.Flavour = "postgres"
          ∧ template.Properties.Release = release
          ∧ template.Properties.PerformanceClass = performanceClass)
    ∧ (∀ uuid, getPostgresTemplateUUID client release performanceClass = .ok uuid →
        ∃ template,
          (templates.filter (isPostgresTemplate release performanceClass)).getLast?
            = some template
          ∧ uuid = template.Properties.ObjectUUID) := by
  obtain ⟨hvalid, htemplate⟩ := templateLoop_result release performanceClass templates
    { isReleaseValid := false, releases := [], uTemplate := zeroPaaSTemplate }
  simp only [Bool.false_or] at hvalid
  have hex : (∃ template ∈ templates, template.Properties.Flavour = "postgres"
      ∧ template.Properties.Release = release
      ∧ template.Properties.PerformanceClass = performanceClass)
      ↔ templates.filter (isPostgresTemplate release performanceClass) ≠ [] := by
    rw [Ne, List.filter_eq_nil_iff]
    simp [isPostgresTemplate, postgresTemplateFlavourName]
  unfold getPostgresTemplateUUID
  simp only [hlist]
  cases hl : templates.filter (isPostgresTemplate release performanceClass) with
  | nil =>
    rw [hl] at hvalid hex
    simp only [List.length_nil, bne_self_eq_false] at hvalid
    simp [hvalid, hex]
  | cons a l =>
    rw [hl] at hvalid htemplate hex
    have hvalid' : (templateLoop release performanceClass templates
        { isReleaseValid := false, releases := [], uTemplate := zeroPaaSTemplate }).isReleaseValid
        = true := by
      rw [hvalid]; simp
    simp only [hvalid', Bool.not_true, Bool.false_eq_true, if_false]
    refine ⟨⟨fun _ => hex.mpr (by simp), fun _ => ⟨_, rfl⟩⟩, ?_⟩
    intro uuid huuid
    cases hlast : (a :: l).getLast? with
    | none => simp at hlast
    | some b =>
      rw [hlast] at htemplate
      refine ⟨b, rfl, ?_⟩
      simp only [Except.ok.injEq] at huuid
      rw [← huuid, htemplate]
      rfl

/-- A concrete run of C10: the one postgres template of release `13` and class `standard`
is `tpl-1`, and that is the UUID returned. -/
theorem getPostgresTemplateUUID_witness :
    exampleClient.GetPaaSTemplateList = .ok exampleTemplates
    ∧ ∃ uuid, getPostgresTemplateUUID exampleClient "13" "standard" = .ok uuid
        ∧ uuid = "tpl-1" := by
  have key := getPostgresTemplateUUID_spec exampleClient exampleTemplates "13" "standard" rfl
  obtain ⟨uuid, hrun⟩ := key.1.mpr
    ⟨_, List.mem_cons_of_mem _ (List.mem_cons_self _ _), rfl, rfl, rfl⟩
  obtain ⟨template, hlast, huuid⟩ := key.2 uuid hrun
  have hfilter : (exampleTemplates.filter (isPostgresTemplate "13" "standard")).getLast?
      = some { Properties :=
                { ObjectUUID := "tpl-1", Flavour := "postgres", Release := "13"
                  PerformanceClass := "standard" } } := by
    decide
  rw [hfilter] at hlast
  cases hlast
  exact ⟨rfl, uuid, hrun, huuid⟩

/-! ## The message of a failed template lookup -/

/-- C11, evaluated on the code: for a template list whose one postgres template has
release `13` and class `standard`, the lookup of release `13` in class `high` fails with
the message that `13` is not a valid release, while `13` is among the releases the loop
collected and the same message lists as valid. -/
theorem release_reported_invalid_is_listed_valid :
    getPostgresTemplateUUID standardOnlyClient "13" "high"
      = .error
          (Errorf "13 is not a valid PostgreSQL release. Valid releases are: 13\n")
    ∧ (templateLoop "13" "high"
        [ { Properties :=
            { ObjectUUID := "tpl-1", Flavour := "postgres", Release := "13"
              PerformanceClass := "standard" } } ]
        { isReleaseValid := false, releases := [], uTemplate := zeroPaaSTemplate }).releases
      = ["13"] := by
  constructor
  · simp [getPostgresTemplateUUID, standardOnlyClient, exampleClient, templateLoop,
      postgresTemplateFlavourName, zeroPaaSTemplate, String.intercalate,
      String.intercalate.go]
  · simp [templateLoop, postgresTemplateFlavourName]

/-! ## The requests of Create and Update -/

/-- The fields `NetworkUUID` and `PaaSSecurityZoneUUID` of the PaaS create request. -/
theorem paasCreateRequestBody_network (h : Helpers) (d : ResourceData)
    (requestBody : PaaSServiceCreateRequest)
    (hreq : paasCreateRequestBody h d = .ok requestBody) :
    requestBody.NetworkUUID
        = (if (d.GetOk "network_uuid").2 then (d.Get "network_uuid").asString else "")
    ∧ requestBody.PaaSSecurityZoneUUID
        = (if ((d.GetOk "security_zone_uuid").2 && !(d.GetOk "network_uuid").2) then
            (d.Get "security_zone_uuid").asString else "") := by
  unfold paasCreateRequestBody at hreq
  dsimp only at hreq
  cases hconv : convertParameters h (fun err => err) (d.Get "parameter").asList [] with
  | error err => rw [hconv] at hreq; cases hreq
  | ok m =>
    rw [hconv] at hreq
    simp only [Except.ok.injEq] at hreq
    subst hreq
    constructor
    · cases (d.GetOk "network_uuid").2 <;> cases (d.GetOk "security_zone_uuid").2 <;> rfl
    · cases (d.GetOk "network_uuid").2 <;> cases (d.GetOk "security_zone_uuid").2 <;> rfl

/-- The fields `NetworkUUID` and `PaaSSecurityZoneUUID` of the PostgreSQL create request. -/
theorem postgreSQLCreateRequestBody_network (h : Helpers) (d : ResourceData)
    (templateUUID : String) :
    (postgreSQLCreateRequestBody h d templateUUID).NetworkUUID
        = (if (d.GetOk "network_uuid").2 then (d.Get "network_uuid").asString else "")
    ∧ (postgreSQLCreateRequestBody h d templateUUID).PaaSSecurityZoneUUID
        = (if ((d.GetOk "security_zone_uuid").2 && !(d.GetOk "network_uuid").2) then
            (d.Get "security_zone_uuid").asString else "") := by
  unfold postgreSQLCreateRequestBody
  dsimp only
  constructor
  · cases (d.GetOk "network_uuid").2 <;> cases (d.GetOk "security_zone_uuid").2 <;>
      cases (d.GetOk "max_core_count").2 <;> rfl
  · cases (d.GetOk "network_uuid").2 <;> cases (d.GetOk "security_zone_uuid").2 <;>
      cases (d.GetOk "max_core_count").2 <;> rfl

/-- The two fields of a create request, as the handlers fill them, satisfy the claim on
the precedence of the network. -/
theorem networkPrecedence_of_fields (d : ResourceData) (requestBody : PaaSServiceCreateRequest)
    (hnet : requestBody.NetworkUUID
        = (if (d.GetOk "network_uuid").2 then (d.Get "network_uuid").asString else ""))
    (hzone : requestBody.PaaSSecurityZoneUUID
        = (if ((d.GetOk "security_zone_uuid").2 && !(d.GetOk "network_uuid").2) then
            (d.Get "security_zone_uuid").asString else "")) :
    NetworkPrecedence d requestBody := by
  refine ⟨?_, ?_, ?_⟩
  · rintro ⟨hn, hz⟩
    cases hset : (d.GetOk "network_uuid").2 with
    | false => rw [hset] at hnet; exact hn (by simpa using hnet)
    | true => rw [hset] at hzone; exact hz (by simpa using hzone)
  · intro network hvalue hne
    have hset : (d.GetOk "network_uuid").2 = true := by
      simp [ResourceData.GetOk, hvalue, Value.isZero, hne]
    rw [hset] at hnet hzone
    exact ⟨by simpa [hvalue, Value.asString] using hnet, by simpa using hzone⟩
  · intro zone hzero hvalue hne
    have hset : (d.GetOk "network_uuid").2 = false := by
      simp [ResourceData.GetOk, hzero]
    have hzset : (d.GetOk "security_zone_uuid").2 = true := by
      simp [ResourceData.GetOk, hvalue, Value.isZero, hne]
    rw [hset] at hnet
    rw [hset, hzset] at hzone
    exact ⟨by simpa [hvalue, Value.asString] using hzone, by simpa using hnet⟩

/-- C12. In the create request built by the PaaS and PostgreSQL Create handlers,
`network_uuid` takes precedence over `security_zone_uuid`: for every configuration the
request never has both `NetworkUUID` and `PaaSSecurityZoneUUID` non-empty; when
`network_uuid` is set the request's `NetworkUUID` equals it and `PaaSSecurityZoneUUID` is
empty, and when only `security_zone_uuid` is set the request's `PaaSSecurityZoneUUID`
equals it and `NetworkUUID` is empty. -/
theorem create_request_network_precedence (h : Helpers) (d : ResourceData) :
    (∀ requestBody, paasCreateRequestBody h d = .ok requestBody →
        NetworkPrecedence d requestBody)
    ∧ (∀ templateUUID, NetworkPrecedence d (postgreSQLCreateRequestBody h d templateUUID)) := by
  constructor
  · intro requestBody hreq
    obtain ⟨hnet, hzone⟩ := paasCreateRequestBody_network h d requestBody hreq
    exact networkPrecedence_of_fields d requestBody hnet hzone
  · intro templateUUID
    obtain ⟨hnet, hzone⟩ := postgreSQLCreateRequestBody_network h d templateUUID
    exact networkPrecedence_of_fields d _ hnet hzone

/-- A concrete run of C12: with both attributes configured the PostgreSQL create request
carries the network `net-7` and no security zone; with only the zone configured it
carries the zone `sz-1` and no network. -/
theorem create_request_network_precedence_witness :
    ((postgreSQLCreateRequestBody exampleHelpers networkAndZoneData "tpl-1").NetworkUUID = "net-7"
      ∧ (postgreSQLCreateRequestBody exampleHelpers networkAndZoneData "tpl-1").PaaSSecurityZoneUUID
          = "")
    ∧ ((postgreSQLCreateRequestBody exampleHelpers zoneOnlyData "tpl-1").PaaSSecurityZoneUUID
          = "sz-1"
      ∧ (postgreSQLCreateRequestBody exampleHelpers zoneOnlyData "tpl-1").NetworkUUID = "") := by
  constructor
  · exact ((create_request_network_precedence exampleHelpers networkAndZoneData).2 "tpl-1").2.1
      "net-7" (by simp [networkAndZoneData, ResourceData.Get, mapGet]) (by decide)
  · exact ((create_request_network_precedence exampleHelpers zoneOnlyData).2 "tpl-1").2.2
      "sz-1" (by simp [zoneOnlyData, ResourceData.Get, mapGet, Value.isZero])
      (by simp [zoneOnlyData, ResourceData.Get, mapGet]) (by decide)

/-- C13. The update request built by `resourceGridscalePaaSServiceUpdate` carries a
service template UUID only when `service_template_uuid` was changed: with no change of
`service_template_uuid` the request's `PaaSServiceTemplateUUID` is empty, whatever the
values of `service_template_uuid` and `service_template_uuid_computed`, and with a
change the field is the new configured value. -/
theorem update_request_template_only_when_changed (h : Helpers) (d : ResourceData)
    (errorPrefix : String) (requestBody : PaaSServiceUpdateRequest)
    (hreq : paasUpdateRequestBody h d errorPrefix = .ok requestBody) :
    (d.HasChange "service_template_uuid" = false → requestBody.PaaSServiceTemplateUUID = "")
    ∧ (d.HasChange "service_template_uuid" = true →
        requestBody.PaaSServiceTemplateUUID = (d.Get "service_template_uuid").asString) := by
  unfold paasUpdateRequestBody at hreq
  dsimp only at hreq
  cases hconv : convertParameters h
      (fun err => Errorf (errorPrefix ++ " error: " ++ err.Error))
      (d.Get "parameter").asList [] with
  | error err => rw [hconv] at hreq; cases hreq
  | ok m =>
    rw [hconv] at hreq
    simp only [Except.ok.injEq] at hreq
    subst hreq
    constructor
    · intro hchange
      rw [hchange]
      cases d.HasChange "network_uuid" <;> rfl
    · intro hchange
      rw [hchange]
      cases d.HasChange "network_uuid" <;> rfl

/-- A concrete run of C13: with `service_template_uuid` changed to `tpl-2` the update
request carries `tpl-2`; with nothing changed it carries no template UUID. -/
theorem update_request_template_witness :
    (∃ requestBody,
        paasUpdateRequestBody exampleHelpers networkAndZoneData "update paas (svc-1) resource -"
          = .ok requestBody
        ∧ requestBody.PaaSServiceTemplateUUID = "tpl-2")
    ∧ (∃ requestBody,
        paasUpdateRequestBody exampleHelpers zoneOnlyData "update paas (svc-1) resource -"
          = .ok requestBody
        ∧ requestBody.PaaSServiceTemplateUUID = "") := by
  constructor
  · cases hreq : paasUpdateRequestBody exampleHelpers networkAndZoneData
        "update paas (svc-1) resource -" with
    | error e =>
      simp [paasUpdateRequestBody, networkAndZoneData, ResourceData.Get, mapGet, Value.asList,
        convertParameters] at hreq
    | ok requestBody =>
      refine ⟨requestBody, rfl, ?_⟩
      rw [(update_request_template_only_when_changed _ _ _ _ hreq).2
        (by simp [ResourceData.HasChange, networkAndZoneData])]
      simp [networkAndZoneData, ResourceData.Get, mapGet, Value.asString]
  · cases hreq : paasUpdateRequestBody exampleHelpers zoneOnlyData
        "update paas (svc-1) resource -" with
    | error e =>
      simp [paasUpdateRequestBody, zoneOnlyData, ResourceData.Get, mapGet, Value.asList,
        convertParameters] at hreq
    | ok requestBody =>
      exact ⟨requestBody, rfl, (update_request_template_only_when_changed _ _ _ _ hreq).1
        (by simp [ResourceData.HasChange, zoneOnlyData])⟩

/-! ## The validator of a parameter's `type` -/

theorem primTypeLoop_iff (v : String) :
    ∀ (supportedPrimTypes : List String) (valid : Bool),
      primTypeLoop v supportedPrimTypes valid = true ↔
        (valid = true ∨ v ∈ supportedPrimTypes) := by
  intro supportedPrimTypes
  induction supportedPrimTypes with
  | nil => intro valid; simp [primTypeLoop]
  | cons primType rest ih =>
    intro valid
    unfold primTypeLoop
    by_cases hv : v = primType
    · simp [hv]
    · rw [if_neg hv, ih valid]
      simp [hv]

/-- C15. The validator of a parameter's `type` accepts exactly the supported primitive
type tags: for every string `v` it returns no warnings, it returns no error iff `v` is an
element of `supportedPrimTypes`, and it returns exactly one error otherwise. -/
theorem type_validator_accepts_supported_types (supportedPrimTypes : List String)
    (v : String) :
    (validateParameterType supportedPrimTypes (.str v)).1 = []
    ∧ ((validateParameterType supportedPrimTypes (.str v)).2 = [] ↔ v ∈ supportedPrimTypes)
    ∧ (v ∉ supportedPrimTypes →
        ∃ err, (validateParameterType supportedPrimTypes (.str v)).2 = [err]) := by
  have hloop := primTypeLoop_iff v supportedPrimTypes false
  simp only [Bool.false_eq_true, false_or] at hloop
  unfold validateParameterType
  simp only [Value.asString]
  cases hvalid : primTypeLoop v supportedPrimTypes false with
  | true =>
    have hmem := hloop.mp hvalid
    simp [hmem]
  | false =>
    have hmem : v ∉ supportedPrimTypes := fun hin => by
      rw [hloop.mpr hin] at hvalid
      cases hvalid
    simp [hmem]

/-- A concrete run of C15: with the tags `string` and `bool` supported, `bool` passes
and `date` is refused with one error. -/
theorem type_validator_witness :
    (validateParameterType ["string", "bool"] (.str "bool")).2 = []
    ∧ ∃ err, (validateParameterType ["string", "bool"] (.str "date")).2 = [err] :=
  ⟨(type_validator_accepts_supported_types ["string", "bool"] "bool").2.1.mpr (by decide),
    (type_validator_accepts_supported_types ["string", "bool"] "date").2.2 (by decide)⟩

/-! ## The destroy check of the network acceptance test -/

/-- C17. The destroy check `testAccCheckGridscaleNetworkDestroyCheck` passes exactly when
every destroyed network is gone: for every state it returns no error iff for each
resource of type `gridscale_network` of the root module the client's `GetNetwork` fails
with a request error of status 404; resources of another type are ignored, and a lookup
that succeeds, fails with another status or fails with another error makes it fail. -/
theorem destroy_check_passes_iff_networks_gone
    (GetNetwork : String → Except GoError Network) (resources : List (String × ResourceState)) :
    testAccCheckGridscaleNetworkDestroyCheck GetNetwork resources = none ↔
      ∀ entry ∈ resources, entry.2.ResourceType = "gridscale_network" →
        ∃ text, GetNetwork entry.2.Primary.ID = .error (GoError.RequestError 404 text) := by
  induction resources with
  | nil => simp [testAccCheckGridscaleNetworkDestroyCheck]
  | cons entry rest ih =>
    obtain ⟨name, rs⟩ := entry
    unfold testAccCheckGridscaleNetworkDestroyCheck
    simp only [List.mem_cons, forall_eq_or_imp]
    by_cases htype : rs.ResourceType = "gridscale_network"
    · simp only [htype, ne_eq, not_true_eq_false, if_false, true_implies]
      cases hget : GetNetwork rs.Primary.ID with
      | ok network => simp
      | error err =>
        cases err with
        | errorString text => simp
        | RequestError code text =>
          by_cases hcode : code = 404
          · subst hcode
            simp [ih]
          · simp [hcode]
    · simp [htype, ih]

/-- A concrete run of C17: the destroyed network is gone (404) and the server in the
state is of another type, so the check passes. -/
theorem destroy_check_witness :
    testAccCheckGridscaleNetworkDestroyCheck networksGone destroyedResources = none :=
  (destroy_check_passes_iff_networks_gone networksGone destroyedResources).mpr
    (fun _ _ _ => ⟨_, rfl⟩)

/-! ## The attributes the PaaS Read handler leaves alone -/

/-- Any run satisfies the trivial postconditions. -/
theorem Handler.Triple.trivial {α : Type} (P : St → Prop) (m : Handler α) :
    Handler.Triple P m (fun _ _ => True) (fun _ _ => True) := by
  intro s _
  split <;> exact True.intro

/-- A write of attribute `k` makes `v` the value of `k`. -/
theorem setOrReturn_sets (text k : String) (v : Value) :
    Handler.Triple (fun _ => True) (setOrReturn text k v)
      (fun _ s => s.d.Get k = v) (fun _ _ => True) :=
  Handler.Triple.setOrReturn (fun _ _ _ => Get_put_same _ _ _) (fun _ _ _ _ => True.intro)

/-- A write of another attribute keeps the value of attribute `k'` when it succeeds. -/
theorem setOrReturn_frame_ok (text k k' : String) (v w : Value) (hne : k ≠ k') :
    Handler.Triple (fun s => s.d.Get k' = w) (setOrReturn text k v)
      (fun _ s => s.d.Get k' = w) (fun _ _ => True) :=
  Handler.Triple.weaken (setOrReturn_frame text k k' v w hne)
    (fun _ hs => hs) (fun _ _ hs => hs) (fun _ _ _ => True.intro)

theorem setPaaSCredentials_frame (errorPrefix k' : String) (w : Value)
    (creds : List Credential) (hu : "username" ≠ k') (hp : "password" ≠ k')
    (hk : "kubeconfig" ≠ k') :
    Handler.Triple (fun s => s.d.Get k' = w) (setPaaSCredentials errorPrefix creds)
      (fun _ s => s.d.Get k' = w) (fun _ s => s.d.Get k' = w) := by
  unfold setPaaSCredentials
  cases creds with
  | nil => exact Handler.Triple.pure (fun _ hs => hs)
  | cons first rest =>
    dsimp only
    refine Handler.Triple.bind (setOrReturn_frame _ _ _ _ _ hu) (fun _ => ?_)
    refine Handler.Triple.bind (setOrReturn_frame _ _ _ _ _ hp) (fun _ => ?_)
    exact setOrReturn_frame _ _ _ _ _ hk

theorem setSecurityZoneNetwork_frame (errorPrefix SecurityZoneUUID k' : String) (w : Value)
    (hne : "network_uuid" ≠ k') :
    ∀ (networks : List Network),
      Handler.Triple (fun s => s.d.Get k' = w)
        (setSecurityZoneNetwork errorPrefix SecurityZoneUUID networks)
        (fun _ s => s.d.Get k' = w) (fun _ s => s.d.Get k' = w) := by
  intro networks
  induction networks with
  | nil => exact Handler.Triple.pure (fun _ hs => hs)
  | cons network rest ih =>
    unfold setSecurityZoneNetwork
    refine Handler.Triple.bind ?_ (fun _ => ih)
    cases hz : network.Properties.Relations.PaaSSecurityZones with
    | nil => exact Handler.Triple.pure (fun _ hs => hs)
    | cons first others =>
      dsimp only
      by_cases heq : first.ObjectUUID = SecurityZoneUUID
      · rw [if_pos heq]
        exact setOrReturn_frame _ _ _ _ _ hne
      · rw [if_neg heq]
        exact Handler.Triple.pure (fun _ hs => hs)

theorem lookForSecurityZoneNetwork_frame (client : Client)
    (errorPrefix SecurityZoneUUID k' : String) (w : Value) (hne : "network_uuid" ≠ k') :
    Handler.Triple (fun s => s.d.Get k' = w)
      (lookForSecurityZoneNetwork client errorPrefix SecurityZoneUUID)
      (fun _ s => s.d.Get k' = w) (fun _ s => s.d.Get k' = w) := by
  unfold lookForSecurityZoneNetwork
  by_cases hz : SecurityZoneUUID = ""
  · rw [if_pos hz]
    exact Handler.Triple.pure (fun _ hs => hs)
  · rw [if_neg hz]
    refine Handler.Triple.bind (Q := fun _ s => s.d.Get k' = w)
      (Handler.Triple.call (fun _ hs => hs)) (fun r => ?_)
    cases r with
    | error err => exact Handler.Triple.fail (fun _ hs => hs)
    | ok networks => exact setSecurityZoneNetwork_frame _ _ _ _ hne networks

/-- The body of the PaaS Read handler keeps `service_template_uuid`, whether it succeeds
or fails. -/
theorem paasReadProperties_keeps_template (h : Helpers) (client : Client)
    (errorPrefix : String) (props : PaaSServiceProperties) (w : Value) :
    Handler.Triple (fun s => s.d.Get "service_template_uuid" = w)
      (paasReadProperties h client errorPrefix props)
      (fun _ s => s.d.Get "service_template_uuid" = w)
      (fun _ s => s.d.Get "service_template_uuid" = w) := by
  unfold paasReadProperties
  dsimp only
  refine Handler.Triple.bind (setOrReturn_frame _ _ _ _ _ (by decide)) (fun _ => ?_)
  refine Handler.Triple.bind
    (setPaaSCredentials_frame _ _ _ _ (by decide) (by decide) (by decide)) (fun _ => ?_)
  iterate 10
    refine Handler.Triple.bind (setOrReturn_frame _ _ _ _ _ (by decide)) (fun _ => ?_)
  cases hrp : readParameters h errorPrefix [] props.Parameters with
  | error e => exact Handler.Triple.fail (fun _ hs => hs)
  | ok parameters =>
    dsimp only
    iterate 3
      refine Handler.Triple.bind (setOrReturn_frame _ _ _ _ _ (by decide)) (fun _ => ?_)
    exact lookForSecurityZoneNetwork_frame client errorPrefix _ _ _ (by decide)

/-- The body of the PaaS Read handler, when it succeeds, leaves the remote template UUID
in `service_template_uuid_computed`. -/
theorem paasReadProperties_sets_computed (h : Helpers) (client : Client)
    (errorPrefix : String) (props : PaaSServiceProperties) :
    Handler.Triple (fun _ => True) (paasReadProperties h client errorPrefix props)
      (fun _ s => s.d.Get "service_template_uuid_computed" = .str props.ServiceTemplateUUID)
      (fun _ _ => True) := by
  unfold paasReadProperties
  dsimp only
  iterate 4
    refine Handler.Triple.bind (Q := fun _ _ => True) (Handler.Triple.trivial _ _)
      (fun _ => ?_)
  refine Handler.Triple.bind (setOrReturn_sets _ _ _) (fun _ => ?_)
  iterate 7
    refine Handler.Triple.bind (setOrReturn_frame_ok _ _ _ _ _ (by decide)) (fun _ => ?_)
  cases hrp : readParameters h errorPrefix [] props.Parameters with
  | error e => exact Handler.Triple.fail (fun _ _ => True.intro)
  | ok parameters =>
    dsimp only
    iterate 3
      refine Handler.Triple.bind (setOrReturn_frame_ok _ _ _ _ _ (by decide)) (fun _ => ?_)
    exact Handler.Triple.weaken
      (lookForSecurityZoneNetwork_frame client errorPrefix _ _ _ (by decide))
      (fun _ hs => hs) (fun _ _ hs => hs) (fun _ _ _ => True.intro)

/-- C14. `resourceGridscalePaaSServiceRead` never writes the user-supplied attribute
`service_template_uuid`: for every API response, after Read `service_template_uuid` has
the value it had before; and after a successful Read of a service,
`service_template_uuid_computed` is the remote service's `ServiceTemplateUUID`. -/
theorem paas_read_keeps_service_template_uuid (h : Helpers) (client : Client) (s : St) :
    (resourceGridscalePaaSServiceRead h client s).1.d.Get "service_template_uuid"
        = s.d.Get "service_template_uuid"
    ∧ (∀ svc s', client.GetPaaSService s.d.Id = .ok svc →
        resourceGridscalePaaSServiceRead h client s = (s', .ok ()) →
        s'.d.Get "service_template_uuid_computed" = .str svc.Properties.ServiceTemplateUUID) := by
  constructor
  · simp only [resourceGridscalePaaSServiceRead, Handler.bind_run, Handler.andThen,
      Handler.data_run, Handler.call_run]
    cases hget : client.GetPaaSService s.d.Id with
    | error err =>
      cases err with
      | RequestError code text =>
        by_cases hcode : code = 404
        · simp [hcode, ResourceData.SetId, ResourceData.Get]
        · simp [hcode]
      | errorString text => simp
    | ok paas =>
      dsimp only
      have hbody := paasReadProperties_keeps_template h client
        ("read paas (" ++ s.d.Id ++ ") resource -") paas.Properties
        (s.d.Get "service_template_uuid")
        { d := s.d, calls := s.calls ++ [Call.GetPaaSService s.d.Id] } rfl
      rcases hrun : paasReadProperties h client ("read paas (" ++ s.d.Id ++ ") resource -")
        paas.Properties { d := s.d, calls := s.calls ++ [Call.GetPaaSService s.d.Id] }
        with ⟨s₁, r⟩
      rw [hrun] at hbody
      cases r <;> exact hbody
  · intro svc s' hget hrun
    simp only [resourceGridscalePaaSServiceRead, Handler.bind_run, Handler.andThen,
      Handler.data_run, Handler.call_run, hget] at hrun
    have hbody := paasReadProperties_sets_computed h client
      ("read paas (" ++ s.d.Id ++ ") resource -") svc.Properties
      { d := s.d, calls := s.calls ++ [Call.GetPaaSService s.d.Id] } True.intro
    rw [hrun] at hbody
    exact hbody

/-- A concrete run of C14: the remote template is `tpl-1` while the configuration says
`tpl-2`; after the Read the configured value is still `tpl-2` and the computed one is
`tpl-1`. -/
theorem paas_read_keeps_service_template_uuid_witness :
    (resourceGridscalePaaSServiceRead exampleHelpers exampleClient
        { d := zoneOnlyData, calls := [] }).1.d.Get "service_template_uuid" = .str "tpl-2"
    ∧ (resourceGridscalePaaSServiceRead exampleHelpers exampleClient
        { d := zoneOnlyData, calls := [] }).1.d.Get "service_template_uuid_computed"
        = .str "tpl-1" := by
  have key := paas_read_keeps_service_template_uuid exampleHelpers exampleClient
    { d := zoneOnlyData, calls := [] }
  have hrun : (resourceGridscalePaaSServiceRead exampleHelpers exampleClient
      { d := zoneOnlyData, calls := [] }).2 = .ok () := by
    simp [resourceGridscalePaaSServiceRead, paasReadProperties, setOrReturn_run,
      Handler.andThen, exampleClient, zoneOnlyData, exampleService, acceptAll,
      setPaaSCredentials, readParameters, lookForSecurityZoneNetwork, exampleNetworks,
      setSecurityZoneNetwork, ResourceData.Id]
  constructor
  · rw [key.1]
    simp [zoneOnlyData, ResourceData.Get, mapGet]
  · exact key.2 exampleService _ rfl (run_eq_of_snd hrun)

/-! ## Errors and the ID of the server data source -/

/-- A write the schema accepts succeeds and keeps the ID and the schema. -/
theorem setOrReturn_accepted (writes : List (String × Value)) (id text k : String)
    (v : Value) (hmem : (k, v) ∈ writes) :
    Handler.Triple
      (fun s => (∀ write ∈ writes, s.d.reject write.1 write.2 = none) ∧ s.d.Id = id)
      (setOrReturn text k v)
      (fun _ s => (∀ write ∈ writes, s.d.reject write.1 write.2 = none) ∧ s.d.Id = id)
      (fun _ _ => False) :=
  Handler.Triple.setOrReturn (fun _ hs _ => hs)
    (fun s err hs hrej => by
      have hnone := hs.1 (k, v) hmem
      rw [hrej] at hnone
      cases hnone)

theorem setIsoImages_accepted (writes : List (String × Value)) (id : String) :
    ∀ (images : List ServerIsoImageRelationProperties),
      (∀ isoimage ∈ images, ("isoimage", Value.str isoimage.ObjectUUID) ∈ writes) →
      Handler.Triple
        (fun s => (∀ write ∈ writes, s.d.reject write.1 write.2 = none) ∧ s.d.Id = id)
        (setIsoImages images)
        (fun _ s => (∀ write ∈ writes, s.d.reject write.1 write.2 = none) ∧ s.d.Id = id)
        (fun _ _ => False) := by
  intro images
  induction images with
  | nil => intro _; exact Handler.Triple.pure (fun _ hs => hs)
  | cons isoimage rest ih =>
    intro hmem
    unfold setIsoImages
    exact Handler.Triple.bind
      (setOrReturn_accepted writes id _ _ _ (hmem isoimage (List.mem_cons_self _ _)))
      (fun _ => ih (fun i hi => hmem i (List.mem_cons_of_mem _ hi)))

/-- When the schema accepts every write of the handler, the branch `if err == nil` of the
data source's Read ends without error and with the server's UUID as ID. -/
theorem serverReadProperties_accepted (h : Helpers) (server : Server) :
    Handler.Triple
      (fun s => ∀ write ∈ serverWrites h server, s.d.reject write.1 write.2 = none)
      (serverReadProperties h server)
      (fun _ s => s.d.Id = server.Properties.ObjectUUID)
      (fun _ _ => False) := by
  unfold serverReadProperties
  dsimp only
  refine Handler.Triple.bind
    (Q := fun _ s => (∀ write ∈ serverWrites h server, s.d.reject write.1 write.2 = none)
      ∧ s.d.Id = server.Properties.ObjectUUID)
    (Handler.Triple.SetId (fun _ hs => ⟨hs, rfl⟩)) (fun _ => ?_)
  iterate 20
    refine Handler.Triple.bind
      (setOrReturn_accepted (serverWrites h server) _ _ _ _ (by simp [serverWrites]))
      (fun _ => ?_)
  refine Handler.Triple.bind
    (setIsoImages_accepted (serverWrites h server) _ _
      (fun isoimage hi => by
        simp only [serverWrites, List.mem_append, List.mem_map]
        exact Or.inr ⟨isoimage, hi, rfl⟩))
    (fun _ => ?_)
  exact Handler.Triple.weaken
    (setOrReturn_accepted (serverWrites h server) _ _ _ _ (by simp [serverWrites]))
    (fun _ hs => hs) (fun _ _ hs => hs.2) (fun _ _ hf => hf)

/-- C16. `dataSourceGridscaleServerRead` propagates API errors directly: when `GetServer`
fails the handler returns exactly that error, does not set the ID and writes no
attribute; when `GetServer` succeeds and every attribute write of the handler succeeds,
it returns no error and the ID is the server's `ObjectUUID`. -/
theorem server_data_source_read_propagates (h : Helpers) (client : Client) (s : St) :
    (∀ err, client.GetServer (s.d.Get "resource_id").asString = .error err →
        dataSourceGridscaleServerRead h client s
          = ({ d := s.d, calls := s.calls ++ [Call.GetServer (s.d.Get "resource_id").asString] },
              .error err))
    ∧ (∀ server, client.GetServer (s.d.Get "resource_id").asString = .ok server →
        (∀ write ∈ serverWrites h server, s.d.reject write.1 write.2 = none) →
        (dataSourceGridscaleServerRead h client s).2 = .ok ()
        ∧ (dataSourceGridscaleServerRead h client s).1.d.Id = server.Properties.ObjectUUID) := by
  constructor
  · intro err hget
    simp [dataSourceGridscaleServerRead, Handler.andThen, hget]
  · intro server hget haccept
    have hbody := serverReadProperties_accepted h server
      { d := s.d, calls := s.calls ++ [Call.GetServer (s.d.Get "resource_id").asString] }
      haccept
    have hrun : dataSourceGridscaleServerRead h client s
        = serverReadProperties h server
            { d := s.d, calls := s.calls ++ [Call.GetServer (s.d.Get "resource_id").asString] } := by
      simp [dataSourceGridscaleServerRead, Handler.andThen, hget]
    rw [hrun]
    rcases hres : serverReadProperties h server
      { d := s.d, calls := s.calls ++ [Call.GetServer (s.d.Get "resource_id").asString] }
      with ⟨s₁, r⟩
    rw [hres] at hbody
    cases r with
    | error e => exact absurd hbody id
    | ok u => exact ⟨rfl, hbody⟩

/-- A concrete run of C16: the server `srv-1` is read and becomes the ID; with the
server gone the handler returns the client's error and the state keeps its empty ID. -/
theorem server_data_source_read_witness :
    ((dataSourceGridscaleServerRead exampleHelpers exampleClient serverDataSourceState).2
        = .ok ()
      ∧ (dataSourceGridscaleServerRead exampleHelpers exampleClient
          serverDataSourceState).1.d.Id = "srv-1")
    ∧ dataSourceGridscaleServerRead exampleHelpers
        { exampleClient with GetServer := fun _ => .error notFound } serverDataSourceState
      = ({ d := serverDataSourceState.d
           calls := serverDataSourceState.calls
             ++ [Call.GetServer (serverDataSourceState.d.Get "resource_id").asString] },
          .error notFound) :=
  ⟨(server_data_source_read_propagates exampleHelpers exampleClient serverDataSourceState).2
      exampleServer rfl (fun _ _ => rfl),
    (server_data_source_read_propagates exampleHelpers
      { exampleClient with GetServer := fun _ => .error notFound } serverDataSourceState).1
      notFound rfl⟩

end Gridscale
